import Mathlib

/-!
# Waydroid settings panel

A shallow embedding of the Waydroid panel of gnome-control-center
(`src/panels/waydroid/cc-waydroid-panel.c`, `cc-waydroid-app-row.c`,
`cc-waydroid-fdroid-row.c`) and theorems about it.

Widgets are records of the properties the C code reads and writes.  Every
callback is a function from the widget state before the call to the widget
state after it.  Requests that leave the process (D-Bus calls, PackageKit
requests, spawned commands, warnings) are appended to a trace kept next to
the widget state, oldest first.  A signal handler that GTK runs synchronously
inside `gtk_switch_set_active` is run inside the model of that call, unless
its block count is positive.
-/

namespace Waydroid

/-! ## C strings and the GLib string helpers -/

/-- The function `g_strrstr (haystack, needle)`: the part of `haystack` that
starts at the last occurrence of `needle`, or `none` (the C `NULL`) when
`needle` does not occur. -/
def g_strrstr : List Char → List Char → Option (List Char)
  | [], needle => if needle = [] then some [] else none
  | c :: cs, needle =>
    match g_strrstr cs needle with
    | some r => some r
    | none => if needle.isPrefixOf (c :: cs) then some (c :: cs) else none

/-- The test `g_strrstr (haystack, needle) != NULL` on a possibly `NULL`
haystack (`g_strrstr` returns `NULL` for a `NULL` haystack). -/
def strrstr_found (haystack : Option String) (needle : String) : Bool :=
  match haystack with
  | none => false
  | some h => (g_strrstr h.toList needle.toList).isSome

/-- The C function `strcmp` on the characters of two strings; only the sign
of the result is meaningful.  The end of a string (its terminating zero
byte) compares below every character, and comparing code points agrees with
comparing the bytes of the UTF-8 encodings. -/
def strcmpChars : List Char → List Char → Int
  | [], [] => 0
  | [], _ :: _ => -1
  | _ :: _, [] => 1
  | a :: as, b :: bs =>
    if a = b then strcmpChars as bs else (a.toNat : Int) - (b.toNat : Int)

/-- The C function `strcmp` on two (non-`NULL`) strings. -/
def strcmp (a b : String) : Int := strcmpChars a.toList b.toList

/-- The function `g_strcmp0 (a, b) == 0` where `a` may be `NULL` and `b` is a
literal. -/
def g_strcmp0_eq (a : Option String) (b : String) : Bool := a == some b

/-- The scan of `g_string_replace` for a non-empty `find`: `skip` counts the
characters of a match that are still to be erased. -/
def g_string_replace_scan (find replace : List Char) : Nat → List Char → List Char
  | _, [] => []
  | skip + 1, _ :: cs => g_string_replace_scan find replace skip cs
  | 0, c :: cs =>
    if find.isPrefixOf (c :: cs) then
      replace ++ g_string_replace_scan find replace (find.length - 1) cs
    else
      c :: g_string_replace_scan find replace 0 cs

/-- The scan of `g_string_replace` for an empty `find`: the replacement is
inserted before every character and at the end. -/
def g_string_replace_empty (replace : List Char) : List Char → List Char
  | [] => replace
  | c :: cs => replace ++ c :: g_string_replace_empty replace cs

/-- The function `g_string_replace (string, find, replace, 0)`: every
occurrence of `find`, scanning from the left without overlap, is replaced by
`replace` (limit `0` means no limit). -/
def g_string_replace (string find replace : String) : String :=
  if find.toList = [] then
    String.mk (g_string_replace_empty replace.toList string.toList)
  else
    String.mk (g_string_replace_scan find.toList replace.toList 0 string.toList)

/-- The conversion `%d` of `g_strdup_printf` applied to an unsigned 32-bit
identifier: the value is read as a signed 32-bit integer. -/
def printf_d (n : Nat) : String :=
  let m := n % 2 ^ 32
  if m < 2 ^ 31 then toString m else "-" ++ toString (2 ^ 32 - m)

/-- The conversion `%b` of `g_strdup_printf` applied to a `gboolean`: the
binary digits of the value. -/
def printf_b (b : Bool) : String := if b then "1" else "0"

/-! ## Key files -/

/-- The `Desktop Entry` group of a `GKeyFile`, the only group this code
reads or writes: its keys and values in file order. -/
abbrev GKeyFile := List (String × String)

/-- The constant `G_KEY_FILE_DESKTOP_KEY_NAME`. -/
def G_KEY_FILE_DESKTOP_KEY_NAME : String := "Name"

/-- The constant `G_KEY_FILE_DESKTOP_KEY_ICON`. -/
def G_KEY_FILE_DESKTOP_KEY_ICON : String := "Icon"

/-- The constant `G_KEY_FILE_DESKTOP_KEY_EXEC`. -/
def G_KEY_FILE_DESKTOP_KEY_EXEC : String := "Exec"

/-- The constant `G_KEY_FILE_DESKTOP_KEY_NO_DISPLAY`. -/
def G_KEY_FILE_DESKTOP_KEY_NO_DISPLAY : String := "NoDisplay"

/-- The function `g_key_file_get_string` in the `Desktop Entry` group; `none`
is the C `NULL` returned for a missing key. -/
def g_key_file_get_string (key_file : GKeyFile) (key : String) : Option String :=
  match key_file with
  | [] => none
  | (k, v) :: rest => if k = key then some v else g_key_file_get_string rest key

/-- The function `g_key_file_set_value` in the `Desktop Entry` group: the
value of an existing key is replaced in place, a new key is appended. -/
def g_key_file_set_value (key_file : GKeyFile) (key value : String) : GKeyFile :=
  match key_file with
  | [] => [(key, value)]
  | (k, v) :: rest =>
    if k = key then (k, value) :: rest else (k, v) :: g_key_file_set_value rest key value

/-- The function `g_key_file_set_boolean`: booleans are stored as the words
`true` and `false`. -/
def g_key_file_set_boolean (key_file : GKeyFile) (key : String) (value : Bool) : GKeyFile :=
  g_key_file_set_value key_file key (if value then "true" else "false")

/-- The desktop-entry files on disk: what `g_key_file_load_from_file` yields
for a path (`none` when the load fails) and what `g_key_file_save_to_file`
overwrites. -/
abbrev DesktopFiles := String → Option GKeyFile

/-- The effect of a successful `g_key_file_save_to_file` on the files. -/
def DesktopFiles.save (files : DesktopFiles) (filename : String) (key_file : GKeyFile) :
    DesktopFiles :=
  fun path => if path = filename then some key_file else files path

/-! ## Requests that leave the process -/

/-- The parameters of a D-Bus method call made by the panel. -/
inductive DBusParams where
  /-- No parameters (`NULL`). -/
  | null
  /-- The tuple `(b)`. -/
  | b (value : Bool)
  /-- The tuple `(v)` holding a string map `a{ss}`; a value is `none` when
  the C pointer handed to the builder is `NULL`. -/
  | v (session : List (String × Option String))
  deriving DecidableEq

/-- A request issued to the outside world. -/
inductive Effect where
  /-- The call `g_dbus_proxy_new_for_bus`. -/
  | dbus_proxy_new
  /-- The call `g_dbus_proxy_call` with a method name and parameters. -/
  | dbus_call (method : String) (params : DBusParams)
  /-- The call `pk_task_resolve_async` with the package names. -/
  | pk_resolve (names : List String)
  /-- The call `pk_client_install_packages_async` with the package ids. -/
  | pk_install (ids : List String)
  /-- The call `g_spawn_async_with_pipes` with an argument vector. -/
  | spawn_async (argv : List String)
  /-- The call `g_spawn_command_line_async` with a command line. -/
  | spawn_command_line (command : String)
  /-- The call `g_io_add_watch` registering `get_prop_watch` for a property. -/
  | io_add_watch (prop : String)
  /-- The call `g_warning`. -/
  | warning (message : String)
  /-- The call `g_child_watch_add` registering `install_child_exit` for a
  child process. -/
  | child_watch_add (pid : Nat)
  /-- The call `g_file_copy_async` from a URI to a local path. -/
  | file_copy_async (uri : String) (path : String)
  /-- The call `g_file_delete_async` on a local path. -/
  | file_delete_async (path : String)
  deriving DecidableEq

/-- A received `GVariant`, reduced to what the panel inspects: its serialised
size, `g_variant_get_size`. -/
structure GVariant where
  size : Nat
  deriving DecidableEq

/-- The value `g_variant_new ("b", TRUE)`: a boolean serialises to one byte. -/
def g_variant_new_b_TRUE : GVariant := { size := 1 }

/-- The outcome of `g_dbus_proxy_call_finish`: an error message or the reply. -/
abbrev DBusReply := Except String GVariant

/-! ## Widgets -/

/-- A `GtkSwitch` together with the change handler the template connects to
it: `blocked` is the handler's block count. -/
structure GtkSwitch where
  active : Bool
  sensitive : Bool
  blocked : Nat
  deriving DecidableEq

/-- The function `g_signal_handlers_block_by_func`. -/
def GtkSwitch.block (sw : GtkSwitch) : GtkSwitch := { sw with blocked := sw.blocked + 1 }

/-- The function `g_signal_handlers_unblock_by_func`; unblocking a handler
that is not blocked changes nothing. -/
def GtkSwitch.unblock (sw : GtkSwitch) : GtkSwitch := { sw with blocked := sw.blocked - 1 }

/-- The function `gtk_switch_set_active`: when the value changes it is stored
and the change is notified; the second component tells whether the connected
handler runs (the value changed and the handler is not blocked). -/
def gtk_switch_set_active (sw : GtkSwitch) (is_active : Bool) : GtkSwitch × Bool :=
  if sw.active = is_active then (sw, false)
  else ({ sw with active := is_active }, sw.blocked == 0)

/-! ## Application rows (`cc-waydroid-app-row.c`) -/

/-- The table `ROOT_APPLICATIONS`. -/
def ROOT_APPLICATIONS : List String :=
  [ "com.android.documentsui",
    "com.android.contacts",
    "com.android.camera2",
    "org.lineageos.recorder",
    "com.android.gallery3d",
    "org.lineageos.jelly",
    "org.lineageos.eleven",
    "org.lineageos.etar",
    "com.android.settings",
    "com.android.calculator2",
    "com.android.deskclock",
    "com.android.traceur" ]

/-- The loop of `is_root_application` over the entries of the table. -/
def is_root_application_loop (filename : String) : List String → Bool
  | [] => false
  | root :: rest =>
    if strrstr_found (some filename) root then true
    else is_root_application_loop filename rest

/-- The function `is_root_application`. -/
def is_root_application (filename : String) : Bool :=
  is_root_application_loop filename ROOT_APPLICATIONS

/-- The descriptor `GDesktopAppInfo` as the panel sees it: the path of the
desktop-entry file (`g_desktop_app_info_get_filename`) and the strings
`g_desktop_app_info_get_string` returns for `Name` and `Exec`.  Each of the
three is `none` where the C pointer is `NULL`: a descriptor built from a
desktop file without a `Name` key has no `Name`. -/
structure GDesktopAppInfo where
  filename : Option String
  Name : Option String
  Exec : Option String
  deriving DecidableEq

/-- The widget `CcAppRow`.  Opacities are in hundredths (`50` is `0.5`).
The field `issued` is the trace of requests the row has made. -/
structure CcAppRow where
  title : String
  icon : String
  remove_application_button_sensitive : Bool
  show_in_launcher_switch : GtkSwitch
  desktop_file : GKeyFile
  filename : String
  expanded : Bool
  sensitive : Bool
  opacity : Nat
  issued : List Effect
  deriving DecidableEq

/-- The handler `show_in_launcher_active_cb`.  The argument `save_ok` tells
whether `g_key_file_save_to_file` succeeds for a path; when it fails the
file is left as it was and the error is logged with `g_warning`. -/
def show_in_launcher_active_cb (save_ok : String → Bool) (files : DesktopFiles)
    (self : CcAppRow) : DesktopFiles × CcAppRow :=
  let active := self.show_in_launcher_switch.active
  let desktop_file :=
    g_key_file_set_boolean self.desktop_file G_KEY_FILE_DESKTOP_KEY_NO_DISPLAY (!active)
  let self := { self with desktop_file := desktop_file }
  if save_ok self.filename then
    (files.save self.filename desktop_file, self)
  else
    (files, { self with issued := self.issued ++ [Effect.warning "save failed"] })

/-- The call `gtk_switch_set_active (self->show_in_launcher_switch, v)`
together with the handler the template connects to that switch. -/
def show_in_launcher_switch_set_active (save_ok : String → Bool) (files : DesktopFiles)
    (self : CcAppRow) (is_active : Bool) : DesktopFiles × CcAppRow :=
  let r := gtk_switch_set_active self.show_in_launcher_switch is_active
  let self := { self with show_in_launcher_switch := r.1 }
  if r.2 then show_in_launcher_active_cb save_ok files self else (files, self)

/-- The handler `remove_application_dialog_cb` for a dialog response. -/
def remove_application_dialog_cb (response : String) (self : CcAppRow) : CcAppRow :=
  if g_strcmp0_eq (some response) "remove" then
    let exec := (g_key_file_get_string self.desktop_file G_KEY_FILE_DESKTOP_KEY_EXEC).getD ""
    let command := g_string_replace exec "launch" "remove"
    { self with
      issued := self.issued ++ [Effect.spawn_command_line command]
      expanded := false
      sensitive := false
      opacity := 50 }
  else self

/-- The constructor `cc_app_row_new`.  The argument `template` is the row as
`g_object_new` builds it from `cc-waydroid-app-row.ui`, a resource that is
not part of the sources read here.  The result is `none` where the C code
returns `NULL`. -/
def cc_app_row_new (save_ok : String → Bool) (template : CcAppRow) (files : DesktopFiles)
    (app_info : GDesktopAppInfo) : DesktopFiles × Option CcAppRow :=
  match app_info.filename with
  | none => (files, none)
  | some filename =>
    match files filename with
    | none => (files, none)
    | some desktop_file =>
      match g_key_file_get_string desktop_file G_KEY_FILE_DESKTOP_KEY_NAME with
      | none => (files, none)
      | some name =>
        match g_key_file_get_string desktop_file G_KEY_FILE_DESKTOP_KEY_ICON with
        | none => (files, none)
        | some icon_name =>
          let no_display := g_key_file_get_string desktop_file G_KEY_FILE_DESKTOP_KEY_NO_DISPLAY
          let self := { template with desktop_file := desktop_file, filename := filename }
          let self := { self with title := name, icon := icon_name }
          let self :=
            if is_root_application filename then
              { self with remove_application_button_sensitive := false }
            else self
          let self := { self with show_in_launcher_switch := self.show_in_launcher_switch.block }
          let r := show_in_launcher_switch_set_active save_ok files self
                     (!(g_strcmp0_eq no_display "true"))
          let self := r.2
          let self :=
            { self with show_in_launcher_switch := self.show_in_launcher_switch.unblock }
          (r.1, some self)

/-! ## The store bootstrap row (`cc-waydroid-fdroid-row.c`) -/

/-- The widget `CcFdroidRow`. -/
structure CcFdroidRow where
  install_row_title : String
  install_application_button_sensitive : Bool
  install_application_button_label : String
  spinner : Bool
  issued : List Effect
  deriving DecidableEq

/-- A row of the `android_applications` group. -/
inductive Row where
  | fdroid (row : CcFdroidRow)
  | app (row : CcAppRow)
  deriving DecidableEq

/-! ## The panel (`cc-waydroid-panel.c`) -/

/-- What the panel reads from its environment. -/
structure Env where
  /-- The value of `g_getenv ("GRID_UNIT_PX")`. -/
  GRID_UNIT_PX : Option String
  /-- The outcome of `g_spawn_command_line_sync` for the density helper:
  `none` when the command could not be run (the output pointer is then
  `NULL` and the exit status is not written), else its standard output and
  exit status. -/
  getprop : Option (String × Int)
  /-- The value of `getuid ()`. -/
  uid : Nat
  /-- The value of `getgid ()`. -/
  gid : Nat
  /-- The value of `getpid ()`. -/
  pid : Nat
  /-- The value of `g_get_user_name ()`. -/
  user_name : String
  /-- The value of `g_get_home_dir ()`. -/
  home_dir : String
  /-- The value of `g_get_user_data_dir ()`. -/
  user_data_dir : String
  /-- The value of `g_get_user_runtime_dir ()`. -/
  user_runtime_dir : String
  /-- Whether `g_spawn_async_with_pipes` succeeds for an argument vector. -/
  spawn_ok : List String → Bool
  /-- Whether `g_key_file_save_to_file` succeeds for a path. -/
  save_ok : String → Bool
  /-- The result of `g_desktop_app_info_search ("waydroid")`. -/
  search : List (List String)
  /-- The function `g_desktop_app_info_new` on a desktop id. -/
  g_desktop_app_info_new : String → Option GDesktopAppInfo
  /-- The row `g_object_new (CC_TYPE_APP_ROW)` builds from its template. -/
  app_row_template : CcAppRow
  /-- The row `g_object_new (CC_TYPE_FDROID_ROW)` builds from its template. -/
  fdroid_row_template : CcFdroidRow

/-- The widget `CcWaydroidPanel`.  The field `waydroid_proxy` tells whether
the proxy pointer is set; `stack` is the name of the visible child of the
stack; opacities are in hundredths (`100` is `1.0`); titles are the message
ids handed to gettext.  The field `issued` is the trace of requests the
panel has made. -/
structure CcWaydroidPanel where
  waydroid_proxy : Bool
  stack : String
  install_box_sensitive : Bool
  install_box_opacity : Nat
  install_status_page_title : String
  install_waydroid_button_sensitive : Bool
  install_waydroid_button_name : String
  install_waydroid_spinner : Bool
  enable_waydroid_switch : GtkSwitch
  setting_uevent_switch : GtkSwitch
  setting_suspend_switch : GtkSwitch
  setting_shared_folder_switch : GtkSwitch
  android_applications : List Row
  issued : List Effect
  deriving DecidableEq

/-- Appends a request to the trace of the panel. -/
def CcWaydroidPanel.issue (self : CcWaydroidPanel) (e : Effect) : CcWaydroidPanel :=
  { self with issued := self.issued ++ [e] }

/-- The function `g_dbus_proxy_call (self->waydroid_proxy, ...)`: nothing is
sent while the proxy pointer is `NULL`. -/
def g_dbus_proxy_call (self : CcWaydroidPanel) (method : String) (params : DBusParams) :
    CcWaydroidPanel :=
  if self.waydroid_proxy then self.issue (Effect.dbus_call method params) else self

/-- The function `get_lcd_density`; `none` is a `NULL` return value. -/
def get_lcd_density (env : Env) : Option String :=
  let r : Option String × Int :=
    match env.GRID_UNIT_PX with
    | none =>
      match env.getprop with
      | none => (none, 0)
      | some (out, status) => (some out, status)
    | some value => (some value, 0)
  if r.2 = 0 then r.1 else some ""

/-- The function `get_waydroid_session`: the entries of the `a{ss}` map in
the order they are added. -/
def get_waydroid_session (env : Env) : List (String × Option String) :=
  let uid := printf_d env.uid
  let gid := printf_d env.gid
  let pid := printf_d env.pid
  let pulse_runtime_path := env.user_runtime_dir ++ "/pulse"
  let waydroid_data := env.home_dir ++ "/.local/share/waydroid/data"
  let lcd_density := get_lcd_density env
  [ ("user_name", some env.user_name),
    ("user_id", some uid),
    ("group_id", some gid),
    ("host_user", some env.home_dir),
    ("pid", some pid),
    ("state", some "STOPPED"),
    ("xdg_data_home", some env.user_data_dir),
    ("xdg_runtime_dir", some env.user_runtime_dir),
    ("wayland_display", some "wayland-0"),
    ("pulse_runtime_path", some pulse_runtime_path),
    ("lcd_density", lcd_density),
    ("background_start", some "true"),
    ("waydroid_data", some waydroid_data) ]

/-- The function `set_status_page`. -/
def set_status_page (self : CcWaydroidPanel) (installed : Bool) : CcWaydroidPanel :=
  let self := { self with install_box_sensitive := !installed }
  if installed then
    { self with
      install_box_opacity := 0
      install_status_page_title := "Waydroid service needs to be enabled" }
  else
    { self with
      install_box_opacity := 100
      install_status_page_title := "Waydroid package needs to be installed" }

/-- A package record `PkPackage`: its `PkInfoEnum` value and its package id. -/
structure PkPackage where
  info : Nat
  id : String
  deriving DecidableEq

/-- The constant `PK_INFO_ENUM_INSTALLED` of PackageKit. -/
def PK_INFO_ENUM_INSTALLED : Nat := 1

/-- The constant `PK_INFO_ENUM_AVAILABLE` of PackageKit. -/
def PK_INFO_ENUM_AVAILABLE : Nat := 2

/-- The constant `PK_INFO_ENUM_LOW` of PackageKit. -/
def PK_INFO_ENUM_LOW : Nat := 3

/-- The test `(info & PK_INFO_ENUM_INSTALLED) == PK_INFO_ENUM_INSTALLED` by
which `handle_waydroid_package` takes a package as installed. -/
def pk_installed (package : PkPackage) : Bool :=
  (package.info &&& PK_INFO_ENUM_INSTALLED) == PK_INFO_ENUM_INSTALLED

/-- The loop of `handle_waydroid_package`: the state is the flag `installed`
and the panel. -/
def handle_waydroid_package_loop :
    List PkPackage → Bool × CcWaydroidPanel → Bool × CcWaydroidPanel
  | [], st => st
  | package :: rest, (installed, self) =>
    if pk_installed package then
      handle_waydroid_package_loop rest (true, self)
    else
      handle_waydroid_package_loop rest
        (installed, { self with install_waydroid_button_name := package.id })

/-- The function `handle_waydroid_package`. -/
def handle_waydroid_package (self : CcWaydroidPanel) (packages : List PkPackage) :
    CcWaydroidPanel :=
  let r := handle_waydroid_package_loop packages (false, self)
  set_status_page r.2 r.1

/-- The outcome of a resolve request as `waydroid_resolved_cb` reads it. -/
inductive PkResolveResult where
  /-- The request failed (`error != NULL`). -/
  | error (message : String)
  /-- The results carry an error code. -/
  | error_code
  /-- The package array of the results. -/
  | packages (packages : List PkPackage)

/-- The callback `waydroid_resolved_cb`. -/
def waydroid_resolved_cb (res : PkResolveResult) (self : CcWaydroidPanel) : CcWaydroidPanel :=
  match res with
  | PkResolveResult.error _ => self.issue (Effect.warning "Can't contact PackageKit")
  | PkResolveResult.error_code => self.issue (Effect.warning "Can't find waydroid in packages")
  | PkResolveResult.packages packages => handle_waydroid_package self packages

/-- The function `check_waydroid_installed`. -/
def check_waydroid_installed (self : CcWaydroidPanel) : CcWaydroidPanel :=
  self.issue (Effect.pk_resolve ["waydroid"])

/-- The function `check_waydroid_running`. -/
def check_waydroid_running (self : CcWaydroidPanel) : CcWaydroidPanel :=
  g_dbus_proxy_call self "GetSession" DBusParams.null

/-- The handler `enable_waydroid_active_cb`. -/
def enable_waydroid_active_cb (env : Env) (self : CcWaydroidPanel) : CcWaydroidPanel :=
  let active := self.enable_waydroid_switch.active
  let method := if active then "Stop" else "Start"
  let variant :=
    if active then DBusParams.b true else DBusParams.v (get_waydroid_session env)
  g_dbus_proxy_call self method variant

/-- The call `gtk_switch_set_active (self->enable_waydroid_switch, v)`
together with the handler the template connects to that switch. -/
def enable_waydroid_switch_set_active (env : Env) (self : CcWaydroidPanel)
    (is_active : Bool) : CcWaydroidPanel :=
  let r := gtk_switch_set_active self.enable_waydroid_switch is_active
  let self := { self with enable_waydroid_switch := r.1 }
  if r.2 then enable_waydroid_active_cb env self else self

/-- The function `set_android_prop`. -/
def set_android_prop (env : Env) (self : CcWaydroidPanel) (prop value : String) :
    CcWaydroidPanel :=
  let argv := ["/usr/bin/waydroid2", "prop", "set", prop, value]
  let self := self.issue (Effect.spawn_async argv)
  if env.spawn_ok argv then self
  else self.issue (Effect.warning ("Can't write property: " ++ prop))

/-- The handler `setting_uevent_active_cb`. -/
def setting_uevent_active_cb (env : Env) (self : CcWaydroidPanel) : CcWaydroidPanel :=
  set_android_prop env self "uevent" (printf_b self.setting_uevent_switch.active)

/-- The handler `setting_suspend_active_cb`. -/
def setting_suspend_active_cb (env : Env) (self : CcWaydroidPanel) : CcWaydroidPanel :=
  set_android_prop env self "suspend" (printf_b self.setting_suspend_switch.active)

/-- The call `gtk_switch_set_active (self->setting_uevent_switch, v)`
together with the handler the template connects to that switch. -/
def setting_uevent_switch_set_active (env : Env) (self : CcWaydroidPanel)
    (is_active : Bool) : CcWaydroidPanel :=
  let r := gtk_switch_set_active self.setting_uevent_switch is_active
  let self := { self with setting_uevent_switch := r.1 }
  if r.2 then setting_uevent_active_cb env self else self

/-- The call `gtk_switch_set_active (self->setting_suspend_switch, v)`
together with the handler the template connects to that switch. -/
def setting_suspend_switch_set_active (env : Env) (self : CcWaydroidPanel)
    (is_active : Bool) : CcWaydroidPanel :=
  let r := gtk_switch_set_active self.setting_suspend_switch is_active
  let self := { self with setting_suspend_switch := r.1 }
  if r.2 then setting_suspend_active_cb env self else self

/-- The callback `get_prop_watch` for the property named `prop`; `line` is
what `g_io_channel_read_line` stored (`none` when nothing was read). -/
def get_prop_watch (env : Env) (prop : String) (line : Option String)
    (self : CcWaydroidPanel) : CcWaydroidPanel :=
  if g_strcmp0_eq (some prop) "uevent" then
    let self := { self with setting_uevent_switch := self.setting_uevent_switch.block }
    let self := setting_uevent_switch_set_active env self (strrstr_found line "true")
    { self with setting_uevent_switch := self.setting_uevent_switch.unblock }
  else if g_strcmp0_eq (some prop) "suspend" then
    let self := { self with setting_suspend_switch := self.setting_suspend_switch.block }
    let self := setting_suspend_switch_set_active env self (strrstr_found line "true")
    { self with setting_suspend_switch := self.setting_suspend_switch.unblock }
  else self

/-- The function `get_android_prop`. -/
def get_android_prop (env : Env) (self : CcWaydroidPanel) (prop : String) : CcWaydroidPanel :=
  let argv := ["/usr/bin/waydroid2", "prop", "get", prop]
  let self := self.issue (Effect.spawn_async argv)
  if env.spawn_ok argv then self.issue (Effect.io_add_watch prop)
  else self.issue (Effect.warning ("Can't read property: " ++ prop))

/-- The callback `waydroid_get_session_cb` for the outcome `res` of the
`GetSession` call. -/
def waydroid_get_session_cb (env : Env) (res : DBusReply) (self : CcWaydroidPanel) :
    CcWaydroidPanel :=
  let self := { self with enable_waydroid_switch := self.enable_waydroid_switch.block }
  let error : Option String :=
    match res with
    | Except.error message => some message
    | Except.ok _ => none
  let result := g_variant_new_b_TRUE
  if false && error.isSome then
    let self := self.issue (Effect.warning "Can't get waydroid session state")
    let self :=
      { self with enable_waydroid_switch := { self.enable_waydroid_switch with sensitive := false } }
    let self := enable_waydroid_switch_set_active env self false
    { self with stack := "install" }
  else
    let self := { self with stack := "configure" }
    let self :=
      { self with enable_waydroid_switch := { self.enable_waydroid_switch with sensitive := true } }
    let self := enable_waydroid_switch_set_active env self (decide (result.size > 0))
    let self := { self with enable_waydroid_switch := self.enable_waydroid_switch.unblock }
    let self := get_android_prop env self "uevent"
    get_android_prop env self "suspend"

/-- The callback `waydroid_state_changed_cb` for the outcome `res` of a
`Start` or `Stop` call. -/
def waydroid_state_changed_cb (env : Env) (res : DBusReply) (self : CcWaydroidPanel) :
    CcWaydroidPanel :=
  let self :=
    match res with
    | Except.error _ =>
      enable_waydroid_switch_set_active env self (!self.enable_waydroid_switch.active)
    | Except.ok _ => self
  check_waydroid_running self

/-- The handler `install_waydroid_clicked_cb`. -/
def install_waydroid_clicked_cb (self : CcWaydroidPanel) : CcWaydroidPanel :=
  let self := { self with install_waydroid_button_sensitive := false }
  let values := [self.install_waydroid_button_name]
  let self := { self with install_waydroid_spinner := true }
  self.issue (Effect.pk_install values)

/-- The callback `waydroid_installed_cb` for the outcome `res` of the install
request. -/
def waydroid_installed_cb (res : Except String Unit) (self : CcWaydroidPanel) :
    CcWaydroidPanel :=
  let self := { self with install_waydroid_spinner := false }
  match res with
  | Except.error message =>
    let self := self.issue (Effect.warning ("Can't install waydroid: " ++ message))
    set_status_page self false
  | Except.ok _ =>
    let self := { self with stack := "configure" }
    let self :=
      { self with enable_waydroid_switch := { self.enable_waydroid_switch with sensitive := true } }
    let self := set_status_page self true
    check_waydroid_running self

/-- The callback `waydroid_bus_cb` for the outcome of creating the proxy. -/
def waydroid_bus_cb (res : Except String Unit) (self : CcWaydroidPanel) : CcWaydroidPanel :=
  match res with
  | Except.error _ =>
    let self := { self with waydroid_proxy := false }
    self.issue (Effect.warning "Can't enable Waydroid bus proxy")
  | Except.ok _ =>
    let self := { self with waydroid_proxy := true }
    check_waydroid_running self

/-! ## The list of applications -/

/-- The comparator `sort_applications`: both names go to `strcmp` without a
test for `NULL`, so the result is `none`, the process dying on the `NULL`
pointer, when either descriptor has no `Name`. -/
def sort_applications (a b : GDesktopAppInfo) : Option Int :=
  match a.Name, b.Name with
  | some name_a, some name_b => some (strcmp name_a name_b)
  | _, _ => none

/-- The function `g_list_insert_sorted (list, data, func)`: `data` is
compared with the elements from the head on and put before the first one it
does not compare greater than.  The result is `none` when a call of the
comparator does not return. -/
def g_list_insert_sorted {α : Type} (func : α → α → Option Int) (list : List α) (data : α) :
    Option (List α) :=
  match list with
  | [] => some [data]
  | x :: rest =>
    match func data x with
    | none => none
    | some cmp =>
      if cmp > 0 then
        match g_list_insert_sorted func rest data with
        | none => none
        | some inserted => some (x :: inserted)
      else some (data :: x :: rest)

/-- The statement that the `Exec` string of a descriptor is present and
contains `needle` as a run of consecutive characters. -/
def exec_contains (needle : String) (d : GDesktopAppInfo) : Bool :=
  match d.Exec with
  | none => false
  | some e => decide (needle.toList <:+: e.toList)

/-- The inner `for` loop of `check_available_apps` over one array of desktop
ids: the state is the list `to_sort` and the flag `fdroid_installed`.  For
an id `g_desktop_app_info_new` rejects, `exec` is `NULL` and both tests fail.
The result is `none` when the process dies in the comparator. -/
def check_available_apps_inner (env : Env) :
    List String → List GDesktopAppInfo × Bool → Option (List GDesktopAppInfo × Bool)
  | [], st => some st
  | id :: rest, (to_sort, fdroid_installed) =>
    match env.g_desktop_app_info_new id with
    | none => check_available_apps_inner env rest (to_sort, fdroid_installed)
    | some app_info =>
      let exec := app_info.Exec
      let inserted :=
        if strrstr_found exec "waydroid app launch " then
          g_list_insert_sorted sort_applications to_sort app_info
        else some to_sort
      match inserted with
      | none => none
      | some to_sort =>
        let fdroid_installed :=
          if strrstr_found exec "org.fdroid.fdroid" then true else fdroid_installed
        check_available_apps_inner env rest (to_sort, fdroid_installed)

/-- The outer `while` loop of `check_available_apps` over the search result. -/
def check_available_apps_outer (env : Env) :
    List (List String) → List GDesktopAppInfo × Bool → Option (List GDesktopAppInfo × Bool)
  | [], st => some st
  | ids :: rest, st =>
    match check_available_apps_inner env ids st with
    | none => none
    | some st => check_available_apps_outer env rest st

/-- The list `to_sort` and the flag `fdroid_installed` of `check_available_apps`
when its loops are done, or `none` when the process died in them. -/
def check_available_apps_scan (env : Env) : Option (List GDesktopAppInfo × Bool) :=
  check_available_apps_outer env env.search ([], false)

/-- The function `add_application`. -/
def add_application (env : Env) (app_info : GDesktopAppInfo)
    (st : DesktopFiles × CcWaydroidPanel) : DesktopFiles × CcWaydroidPanel :=
  let r := cc_app_row_new env.save_ok env.app_row_template st.1 app_info
  match r.2 with
  | some row =>
    (r.1, { st.2 with android_applications := st.2.android_applications ++ [Row.app row] })
  | none => (r.1, st.2)

/-- The call `g_list_foreach (to_sort, add_application, self)`. -/
def g_list_foreach_add_application (env : Env) :
    List GDesktopAppInfo → DesktopFiles × CcWaydroidPanel → DesktopFiles × CcWaydroidPanel
  | [], st => st
  | app_info :: rest, st =>
    g_list_foreach_add_application env rest (add_application env app_info st)

/-- The function `check_available_apps`; the result is `none` when the
process died while the applications were collected. -/
def check_available_apps (env : Env) (files : DesktopFiles) (self : CcWaydroidPanel) :
    Option (DesktopFiles × CcWaydroidPanel) :=
  match check_available_apps_scan env with
  | none => none
  | some scan =>
    let self :=
      if !scan.2 then
        { self with
          android_applications :=
            self.android_applications ++ [Row.fdroid env.fdroid_row_template] }
      else self
    some (g_list_foreach_add_application env scan.1 (files, self))

/-- The function `cc_waydroid_panel_init`, applied to the panel as its
template builds it; the result is `none` when the process died in
`check_available_apps`. -/
def cc_waydroid_panel_init (env : Env) (files : DesktopFiles) (self : CcWaydroidPanel) :
    Option (DesktopFiles × CcWaydroidPanel) :=
  let self := self.issue Effect.dbus_proxy_new
  let self := check_waydroid_installed self
  match check_available_apps env files self with
  | none => none
  | some r => some (r.1, { r.2 with stack := "configure" })

/-! ## Sample inputs -/

/-- A switch as a template builds it: off, sensitive, handler not blocked. -/
def sample_switch : GtkSwitch := { active := false, sensitive := true, blocked := 0 }

/-- An application row as its template builds it, with the GTK defaults. -/
def sample_app_row : CcAppRow :=
  { title := ""
    icon := ""
    remove_application_button_sensitive := true
    show_in_launcher_switch := sample_switch
    desktop_file := []
    filename := ""
    expanded := false
    sensitive := true
    opacity := 100
    issued := [] }

/-- A store bootstrap row as its template builds it. -/
def sample_fdroid_row : CcFdroidRow :=
  { install_row_title := "Install F-Droid"
    install_application_button_sensitive := true
    install_application_button_label := "Install"
    spinner := false
    issued := [] }

/-- An environment with no desktop entries in which every helper can be
spawned and every file can be saved. -/
def sample_env : Env :=
  { GRID_UNIT_PX := some "18"
    getprop := none
    uid := 1000
    gid := 1000
    pid := 4242
    user_name := "droidian"
    home_dir := "/home/droidian"
    user_data_dir := "/home/droidian/.local/share"
    user_runtime_dir := "/run/user/1000"
    spawn_ok := fun _ => true
    save_ok := fun _ => true
    search := []
    g_desktop_app_info_new := fun _ => none
    app_row_template := sample_app_row
    fdroid_row_template := sample_fdroid_row }

/-- A panel with its proxy set, the configuration screen shown and every
switch off with its handler not blocked. -/
def sample_panel : CcWaydroidPanel :=
  { waydroid_proxy := true
    stack := "configure"
    install_box_sensitive := true
    install_box_opacity := 100
    install_status_page_title := ""
    install_waydroid_button_sensitive := true
    install_waydroid_button_name := "GtkButton"
    install_waydroid_spinner := false
    enable_waydroid_switch := sample_switch
    setting_uevent_switch := sample_switch
    setting_suspend_switch := sample_switch
    setting_shared_folder_switch := sample_switch
    android_applications := []
    issued := [] }

/-- The row of an application whose identifier contains the word `launch`. -/
def sample_launcher_row : CcAppRow :=
  { sample_app_row with
    title := "Nova Launcher"
    icon := "/home/droidian/.local/share/waydroid/data/icons/com.teslacoilsw.launcher.png"
    desktop_file :=
      [ ("Name", "Nova Launcher"),
        ("Icon", "/home/droidian/.local/share/waydroid/data/icons/com.teslacoilsw.launcher.png"),
        ("Exec", "waydroid app launch com.teslacoilsw.launcher") ]
    filename :=
      "/home/droidian/.local/share/applications/waydroid.com.teslacoilsw.launcher.desktop" }

/-- The descriptor of the Android settings application. -/
def sample_app_info : GDesktopAppInfo :=
  { filename :=
      some "/home/droidian/.local/share/applications/waydroid.com.android.settings.desktop"
    Name := some "Settings"
    Exec := some "waydroid app launch com.android.settings" }

/-- The descriptor of a calendar application that is not a system component. -/
def sample_user_app_info : GDesktopAppInfo :=
  { filename :=
      some "/home/droidian/.local/share/applications/waydroid.org.fossify.calendar.desktop"
    Name := some "Calendar"
    Exec := some "waydroid app launch org.fossify.calendar" }

/-- The desktop-entry files of the two sample descriptors. -/
def sample_files : DesktopFiles := fun path =>
  if path = "/home/droidian/.local/share/applications/waydroid.com.android.settings.desktop" then
    some
      [ ("Name", "Settings"),
        ("Icon", "/home/droidian/.local/share/waydroid/data/icons/com.android.settings.png"),
        ("Exec", "waydroid app launch com.android.settings"),
        ("NoDisplay", "false") ]
  else if
    path = "/home/droidian/.local/share/applications/waydroid.org.fossify.calendar.desktop" then
    some
      [ ("Name", "Calendar"),
        ("Icon", "/home/droidian/.local/share/waydroid/data/icons/org.fossify.calendar.png"),
        ("Exec", "waydroid app launch org.fossify.calendar") ]
  else none

/-- The row built for the settings application from the sample files. -/
def sample_settings_row : CcAppRow :=
  { sample_app_row with
    title := "Settings"
    icon := "/home/droidian/.local/share/waydroid/data/icons/com.android.settings.png"
    remove_application_button_sensitive := false
    show_in_launcher_switch := { sample_switch with active := true }
    desktop_file :=
      [ ("Name", "Settings"),
        ("Icon", "/home/droidian/.local/share/waydroid/data/icons/com.android.settings.png"),
        ("Exec", "waydroid app launch com.android.settings"),
        ("NoDisplay", "false") ]
    filename :=
      "/home/droidian/.local/share/applications/waydroid.com.android.settings.desktop" }

/-- Two candidates of a resolve result, both available and not installed
(`PK_INFO_ENUM_AVAILABLE` is `2`). -/
def sample_packages : List PkPackage :=
  [ { info := 2, id := "waydroid;1.4.2-1;arm64;droidian" },
    { info := 2, id := "waydroid;1.4.3-1;arm64;droidian" } ]

/-! ## The callbacks of the store bootstrap row -/

/-- The constant `FDROID_URL`. -/
def FDROID_URL : String := "https://f-droid.org/F-Droid.apk"

/-- The function `show_fdroid_error`. -/
def show_fdroid_error (self : CcFdroidRow) (error : String) : CcFdroidRow :=
  { self with
    install_row_title := error
    spinner := false
    install_application_button_sensitive := true }

/-- The callback `install_child_exit`. -/
def install_child_exit (self : CcFdroidRow) : CcFdroidRow :=
  { self with
    spinner := false
    install_application_button_label := "Installed"
    issued := self.issued ++ [Effect.file_delete_async "/tmp/fdroid.apk"] }

/-- The function `install_fdroid`; `spawn` is the outcome of
`g_spawn_async_with_pipes`: the message of the error or the child pid. -/
def install_fdroid (spawn : Except String Nat) (self : CcFdroidRow) : CcFdroidRow :=
  let argv := ["/usr/bin/waydroid2", "app", "install", "/tmp/fdroid.apk"]
  let self := { self with issued := self.issued ++ [Effect.spawn_async argv] }
  match spawn with
  | Except.error message => show_fdroid_error self message
  | Except.ok child_pid =>
    { self with issued := self.issued ++ [Effect.child_watch_add child_pid] }

/-- The callback `fdroid_downloaded_cb`; `res` is the outcome of
`g_file_copy_finish`: the message of the error or success. -/
def fdroid_downloaded_cb (res : Except String Unit) (spawn : Except String Nat)
    (self : CcFdroidRow) : CcFdroidRow :=
  match res with
  | Except.error message => show_fdroid_error self message
  | Except.ok _ => install_fdroid spawn self

/-- The handler `install_application_clicked_cb`. -/
def install_application_clicked_cb (self : CcFdroidRow) : CcFdroidRow :=
  { self with
    spinner := true
    install_application_button_sensitive := false
    issued := self.issued ++ [Effect.file_copy_async FDROID_URL "/tmp/fdroid.apk"] }

/-! ## The removal dialog -/

/-- The dialog `AdwAlertDialog` as `remove_application_clicked_cb` sets it
up: the responses are pairs of an id and a label. -/
structure AdwAlertDialog where
  heading : String
  body : String
  responses : List (String × String)
  default_response : String
  close_response : String
  deriving DecidableEq

/-- The handler `remove_application_clicked_cb`: the dialog it presents.  The
response signal of the dialog is connected to `remove_application_dialog_cb`. -/
def remove_application_clicked_cb (self : CcAppRow) : AdwAlertDialog :=
  let app_name := g_key_file_get_string self.desktop_file G_KEY_FILE_DESKTOP_KEY_NAME
  { heading := "Remove application?"
    body := "This will remove " ++ app_name.getD "(null)"
    responses := [("cancel", "_Cancel"), ("remove", "_Remove")]
    default_response := "cancel"
    close_response := "cancel" }

/-! ## The shared folder -/

/-- The kind of a node of the file system: a directory, a regular file, or
anything else (a FIFO, a socket, a device, a symbolic link that leads
nowhere). -/
inductive Node where
  | dir
  | file
  | other
  deriving DecidableEq

/-- The state of the file system.  The field `nodes` holds the nodes that
exist, each with its path given as the list of its components from the
root.  The field `refused` holds the paths the system does not let this
process create or remove, whatever the reason (a parent directory that is
not writable or not searchable, a read-only file system, a full disk). -/
structure FileSystem where
  nodes : List (List String × Node)
  refused : List (List String)
  deriving DecidableEq

/-- The first node listed for a path, if any. -/
def lookup_nodes (nodes : List (List String × Node)) (path : List String) : Option Node :=
  match nodes with
  | [] => none
  | (p, node) :: rest => if p = path then some node else lookup_nodes rest path

/-- The node at a path, if one exists. -/
def FileSystem.lookup (fs : FileSystem) (path : List String) : Option Node :=
  lookup_nodes fs.nodes path

/-- The file system with one more node. -/
def FileSystem.add (fs : FileSystem) (path : List String) (node : Node) : FileSystem :=
  { fs with nodes := fs.nodes ++ [(path, node)] }

/-- The file system without the node at a path. -/
def FileSystem.remove (fs : FileSystem) (path : List String) : FileSystem :=
  { fs with nodes := fs.nodes.filter (fun e => !(e.1 == path)) }

/-- The directories `g_file_make_directory_with_parents` makes, from the
root down: a path that exists is passed over, a missing one is made, and
the first one the system refuses ends the call with its error; what was
made before stays. -/
def make_directories : List (List String) → FileSystem → FileSystem × Option String
  | [], fs => (fs, none)
  | p :: rest, fs =>
    if (fs.lookup p).isSome then make_directories rest fs
    else if fs.refused.contains p then (fs, some "Permission denied")
    else make_directories rest (fs.add p Node.dir)

/-- The function `g_file_make_directory_with_parents`: it fails, changing
nothing, when the path exists or when a component of the path exists and is
not a directory; otherwise the missing parents and the directory are made
as far as the system lets them be.  The second component is the error, if
any. -/
def g_file_make_directory_with_parents (fs : FileSystem) (path : List String) :
    FileSystem × Option String :=
  if (fs.lookup path).isSome then (fs, some "File exists")
  else if path.inits.any
      (fun p => fs.lookup p == some Node.file || fs.lookup p == some Node.other) then
    (fs, some "Not a directory")
  else make_directories path.inits fs

/-- The function `g_file_create`: it fails, changing nothing, when the path
exists, when its parent is not a directory or when the system refuses;
otherwise an empty regular file is created. -/
def g_file_create (fs : FileSystem) (path : List String) : FileSystem × Option String :=
  if (fs.lookup path).isSome then (fs, some "File exists")
  else if fs.lookup path.dropLast = some Node.dir then
    if fs.refused.contains path then (fs, some "Permission denied")
    else (fs.add path Node.file, none)
  else if fs.lookup path.dropLast = none then (fs, some "No such file or directory")
  else (fs, some "Not a directory")

/-- The function `g_file_delete`: a node that is not a directory, or an empty
directory, is removed; it fails, changing nothing, when nothing exists at
the path, when the system refuses or when the directory is not empty. -/
def g_file_delete (fs : FileSystem) (path : List String) : FileSystem × Option String :=
  match fs.lookup path with
  | none => (fs, some "No such file or directory")
  | some node =>
    if fs.refused.contains path then (fs, some "Permission denied")
    else if node = Node.dir ∧
        fs.nodes.any (fun e => path.isPrefixOf e.1 && !(e.1 == path)) = true then
      (fs, some "Directory not empty")
    else (fs.remove path, none)

/-- The handler `setting_shared_folder_active_cb`; `config_dir` is the path
`g_get_user_config_dir ()` split into its components. -/
def setting_shared_folder_active_cb (config_dir : List String) (fs : FileSystem)
    (self : CcWaydroidPanel) : FileSystem × CcWaydroidPanel :=
  let dirname := config_dir ++ ["Droidian"]
  let filename := dirname ++ ["waydroid_shared_folder"]
  let error : Option String := none
  let active := self.setting_shared_folder_switch.active
  let r : FileSystem × Option String :=
    if active then
      let fs := (g_file_make_directory_with_parents fs dirname).1
      if error.isNone then g_file_create fs filename else (fs, error)
    else g_file_delete fs filename
  match r.2 with
  | some message => (r.1, self.issue (Effect.warning message))
  | none => (r.1, self)

/-- The panel with its shared folder switch in the state `is_active`, as the
handler finds it when it runs. -/
def shared_folder_switch_in_state (self : CcWaydroidPanel) (is_active : Bool) :
    CcWaydroidPanel :=
  { self with
    setting_shared_folder_switch := { self.setting_shared_folder_switch with active := is_active } }

/-- The call `gtk_switch_set_active (self->setting_shared_folder_switch, v)`
together with the handler the template connects to that switch. -/
def setting_shared_folder_switch_set_active (config_dir : List String) (fs : FileSystem)
    (self : CcWaydroidPanel) (is_active : Bool) : FileSystem × CcWaydroidPanel :=
  let r := gtk_switch_set_active self.setting_shared_folder_switch is_active
  let self := { self with setting_shared_folder_switch := r.1 }
  if r.2 then setting_shared_folder_active_cb config_dir fs self else (fs, self)

/-! ## The panel as a state machine -/

/-- An event the main loop delivers to the panel: the completion of a
request with its outcome, or a user action on a control. -/
inductive PanelEvent where
  /-- The resolve request completes: `waydroid_resolved_cb`. -/
  | resolved (res : PkResolveResult)
  /-- The install button is clicked: `install_waydroid_clicked_cb`. -/
  | install_clicked
  /-- The install request completes: `waydroid_installed_cb`. -/
  | installed (res : Except String Unit)
  /-- The proxy is created or fails to be: `waydroid_bus_cb`. -/
  | bus (res : Except String Unit)
  /-- The status query completes: `waydroid_get_session_cb`. -/
  | get_session (res : DBusReply)
  /-- A Start or Stop request completes: `waydroid_state_changed_cb`. -/
  | state_changed (res : DBusReply)
  /-- The property helper has output to read: `get_prop_watch`. -/
  | prop_watch (prop : String) (line : Option String)
  /-- The user sets the lifecycle switch. -/
  | enable_toggled (is_active : Bool)
  /-- The user sets the uevent switch. -/
  | uevent_toggled (is_active : Bool)
  /-- The user sets the suspend switch. -/
  | suspend_toggled (is_active : Bool)
  /-- The user sets the shared folder switch. -/
  | shared_folder_toggled (is_active : Bool)

/-- The effect of one event on the file system and the panel. -/
def panel_step (env : Env) (config_dir : List String) (st : FileSystem × CcWaydroidPanel) :
    PanelEvent → FileSystem × CcWaydroidPanel
  | PanelEvent.resolved res => (st.1, waydroid_resolved_cb res st.2)
  | PanelEvent.install_clicked => (st.1, install_waydroid_clicked_cb st.2)
  | PanelEvent.installed res => (st.1, waydroid_installed_cb res st.2)
  | PanelEvent.bus res => (st.1, waydroid_bus_cb res st.2)
  | PanelEvent.get_session res => (st.1, waydroid_get_session_cb env res st.2)
  | PanelEvent.state_changed res => (st.1, waydroid_state_changed_cb env res st.2)
  | PanelEvent.prop_watch prop line => (st.1, get_prop_watch env prop line st.2)
  | PanelEvent.enable_toggled v => (st.1, enable_waydroid_switch_set_active env st.2 v)
  | PanelEvent.uevent_toggled v => (st.1, setting_uevent_switch_set_active env st.2 v)
  | PanelEvent.suspend_toggled v => (st.1, setting_suspend_switch_set_active env st.2 v)
  | PanelEvent.shared_folder_toggled v =>
    setting_shared_folder_switch_set_active config_dir st.1 st.2 v

/-- The effect of a sequence of events, the first one first. -/
def panel_run (env : Env) (config_dir : List String) :
    List PanelEvent → FileSystem × CcWaydroidPanel → FileSystem × CcWaydroidPanel
  | [], st => st
  | ev :: rest, st => panel_run env config_dir rest (panel_step env config_dir st ev)

/-! ## More sample inputs -/

/-- The components of the configuration directory `/home/droidian/.config`. -/
def sample_config_dir : List String := ["home", "droidian", ".config"]

/-- A file system in which the configuration directory exists and is empty
and nothing is refused. -/
def sample_fs : FileSystem :=
  { nodes :=
      [ ([], Node.dir),
        (["home"], Node.dir),
        (["home", "droidian"], Node.dir),
        (["home", "droidian", ".config"], Node.dir) ]
    refused := [] }

/-- A file system in which `Droidian` in the configuration directory is a
regular file. -/
def sample_fs_regular_file : FileSystem :=
  sample_fs.add ["home", "droidian", ".config", "Droidian"] Node.file

/-- A file system in which the configuration directory exists and the system
refuses to make `Droidian` in it, as in a directory without write
permission. -/
def sample_fs_read_only : FileSystem :=
  { sample_fs with refused := [["home", "droidian", ".config", "Droidian"]] }

/-- A file system in which the directory and the marker file exist and the
system refuses to remove the marker file. -/
def sample_fs_marker_kept : FileSystem :=
  { nodes := sample_fs.nodes ++
      [ (["home", "droidian", ".config", "Droidian"], Node.dir),
        (["home", "droidian", ".config", "Droidian", "waydroid_shared_folder"], Node.file) ]
    refused := [["home", "droidian", ".config", "Droidian", "waydroid_shared_folder"]] }

/-- The sample panel with the shared folder switch on. -/
def sample_panel_shared_on : CcWaydroidPanel :=
  { sample_panel with setting_shared_folder_switch := { sample_switch with active := true } }

/-- Two applications with the same display name, enumerated in this order. -/
def sample_env_same_name : Env :=
  { sample_env with
    search := [["waydroid.org.example.one.desktop", "waydroid.org.example.two.desktop"]]
    g_desktop_app_info_new := fun id =>
      if id = "waydroid.org.example.one.desktop" then
        some
          { filename := some "/usr/share/applications/waydroid.org.example.one.desktop"
            Name := some "Notes"
            Exec := some "waydroid app launch org.example.one" }
      else if id = "waydroid.org.example.two.desktop" then
        some
          { filename := some "/usr/share/applications/waydroid.org.example.two.desktop"
            Name := some "Notes"
            Exec := some "waydroid app launch org.example.two" }
      else none }

/-- An environment in which `GRID_UNIT_PX` is not set and the density helper
cannot be run. -/
def sample_env_no_helper : Env :=
  { sample_env with GRID_UNIT_PX := none, getprop := none }

/-- Two launchable applications, the first of which has a desktop file
without a `Name` key. -/
def sample_env_nameless : Env :=
  { sample_env with
    search := [["waydroid.org.example.one.desktop", "waydroid.org.example.two.desktop"]]
    g_desktop_app_info_new := fun id =>
      if id = "waydroid.org.example.one.desktop" then
        some
          { filename := some "/usr/share/applications/waydroid.org.example.one.desktop"
            Name := none
            Exec := some "waydroid app launch org.example.one" }
      else if id = "waydroid.org.example.two.desktop" then
        some
          { filename := some "/usr/share/applications/waydroid.org.example.two.desktop"
            Name := some "Notes"
            Exec := some "waydroid app launch org.example.two" }
      else none }

/-- The sample panel as `cc_waydroid_panel_init` leaves it in the sample
environment, which has no desktop entries. -/
def sample_panel_initialised : CcWaydroidPanel :=
  { sample_panel with
    android_applications := [Row.fdroid sample_fdroid_row]
    issued := [Effect.dbus_proxy_new, Effect.pk_resolve ["waydroid"]] }

/-- A resolve result holding one available and then one installed package. -/
def sample_packages_installed_last : List PkPackage :=
  [ { info := 2, id := "waydroid;1.4.3-1;arm64;droidian" },
    { info := 1, id := "waydroid;1.4.2-1;arm64;installed" } ]

/-- The order of two descriptors by name: both have a `Name` and the first
does not compare greater than the second under `strcmp`. -/
def name_le (a b : GDesktopAppInfo) : Bool :=
  match a.Name, b.Name with
  | some name_a, some name_b => decide (strcmp name_a name_b ≤ 0)
  | _, _ => false

/-! # Theorems -/

/-! ## Strings -/

/-- Two characters with the same code point are equal. -/
theorem char_eq_of_toNat_eq (a b : Char) (h : a.toNat = b.toNat) : a = b := by
  rw [← Char.ofNat_toNat a, ← Char.ofNat_toNat b, h]

/-- The test `g_strrstr (haystack, needle) != NULL` succeeds exactly when
`needle` occurs in `haystack` as a run of consecutive characters. -/
theorem g_strrstr_isSome_iff (haystack needle : List Char) :
    (g_strrstr haystack needle).isSome = true ↔ needle <:+: haystack := by
  induction haystack with
  | nil =>
    by_cases h : needle = []
    · simp [g_strrstr, h]
    · simp [g_strrstr, h]
  | cons c cs ih =>
    rw [List.infix_cons_iff, ← ih]
    cases hr : g_strrstr cs needle with
    | some r => simp [g_strrstr, hr]
    | none =>
      by_cases hp : needle.isPrefixOf (c :: cs) = true
      · simp [g_strrstr, hr, hp, List.isPrefixOf_iff_prefix.mp hp]
      · have hnp : ¬ needle <+: c :: cs := fun hpre => hp (List.isPrefixOf_iff_prefix.mpr hpre)
        simp [g_strrstr, hr, hp, hnp]

/-- The test on a string that is present. -/
theorem strrstr_found_some_iff (haystack needle : String) :
    strrstr_found (some haystack) needle = true ↔ needle.toList <:+: haystack.toList := by
  simp only [strrstr_found]
  exact g_strrstr_isSome_iff haystack.toList needle.toList

/-- The comparison `strcmp` is total: when `a` compares greater than `b`,
`b` compares less than `a`. -/
theorem strcmpChars_total (a b : List Char) (h : strcmpChars a b > 0) :
    strcmpChars b a ≤ 0 := by
  induction a generalizing b with
  | nil =>
    cases b with
    | nil => simp [strcmpChars] at h
    | cons y ys => simp [strcmpChars] at h
  | cons x xs ih =>
    cases b with
    | nil => simp [strcmpChars]
    | cons y ys =>
      by_cases hxy : x = y
      · subst hxy
        simp only [strcmpChars, if_true] at h ⊢
        exact ih ys h
      · have hyx : ¬ y = x := fun e => hxy e.symm
        simp only [strcmpChars, hxy, hyx, if_false] at h ⊢
        omega

/-- The comparison `strcmp` is transitive on "not greater than". -/
theorem strcmpChars_trans (a b c : List Char) (hab : strcmpChars a b ≤ 0)
    (hbc : strcmpChars b c ≤ 0) : strcmpChars a c ≤ 0 := by
  induction a generalizing b c with
  | nil =>
    cases c with
    | nil => simp [strcmpChars]
    | cons z zs => simp [strcmpChars]
  | cons x xs ih =>
    cases b with
    | nil => simp [strcmpChars] at hab
    | cons y ys =>
      cases c with
      | nil => simp [strcmpChars] at hbc
      | cons z zs =>
        by_cases hxy : x = y
        · subst hxy
          by_cases hxz : x = z
          · subst hxz
            simp only [strcmpChars, if_true] at hab hbc ⊢
            exact ih ys zs hab hbc
          · simp only [strcmpChars, hxz, if_true, if_false] at hab hbc ⊢
            exact hbc
        · by_cases hyz : y = z
          · subst hyz
            simp only [strcmpChars, hxy, if_true, if_false] at hab hbc ⊢
            exact hab
          · simp only [strcmpChars, hxy, hyz, if_false] at hab hbc
            by_cases hxz : x = z
            · subst hxz
              have : x.toNat = y.toNat := by omega
              exact absurd (char_eq_of_toNat_eq x y this) hxy
            · simp only [strcmpChars, hxz, if_false]
              omega

/-! ## The lifecycle toggle -/

/-- C1 (code defect).  On the sample panel (proxy set, lifecycle toggle off,
handler not blocked) the user turns the toggle on, which issues one backend
call, and that request fails.  `waydroid_state_changed_cb` then flips the
toggle back without blocking its change handler, so the refresh itself runs
`enable_waydroid_active_cb` and a second Start/Stop call is issued before
the `GetSession` query. -/
theorem state_changed_refresh_runs_change_handler :
    (enable_waydroid_switch_set_active sample_env sample_panel true).issued =
      [Effect.dbus_call "Stop" (DBusParams.b true)] ∧
    (enable_waydroid_switch_set_active sample_env
        sample_panel true).enable_waydroid_switch.blocked = 0 ∧
    (waydroid_state_changed_cb sample_env (Except.error "failed")
        (enable_waydroid_switch_set_active sample_env sample_panel true)).issued =
      [Effect.dbus_call "Stop" (DBusParams.b true),
       Effect.dbus_call "Start" (DBusParams.v (get_waydroid_session sample_env)),
       Effect.dbus_call "GetSession" DBusParams.null] := by
  decide

/-- C2 (code defect).  With the proxy set, `enable_waydroid_active_cb` issues
exactly one call: `Stop` with the tuple `(b)` when the lifecycle switch is
active, and `Start` with the session map when it is not active, the reverse
of what turning the switch on and off asks for. -/
theorem enable_waydroid_active_cb_method (env : Env) (self : CcWaydroidPanel) :
    (enable_waydroid_active_cb env { self with waydroid_proxy := true }).issued =
      self.issued ++
        [if self.enable_waydroid_switch.active then
           Effect.dbus_call "Stop" (DBusParams.b true)
         else
           Effect.dbus_call "Start" (DBusParams.v (get_waydroid_session env))] := by
  cases h : self.enable_waydroid_switch.active <;>
    simp [enable_waydroid_active_cb, g_dbus_proxy_call, CcWaydroidPanel.issue, h]

/-- C3 (code defect).  Whatever the `GetSession` reply, also one whose
payload is empty, `waydroid_get_session_cb` leaves the lifecycle toggle
active: the size it tests is that of a constant it has put in place of the
reply. -/
theorem get_session_cb_always_active (env : Env) (payload : GVariant)
    (self : CcWaydroidPanel) :
    (waydroid_get_session_cb env (Except.ok payload) self).enable_waydroid_switch.active
      = true := by
  by_cases h : self.enable_waydroid_switch.active = true <;>
    simp [waydroid_get_session_cb, get_android_prop, enable_waydroid_switch_set_active,
      gtk_switch_set_active, GtkSwitch.block, GtkSwitch.unblock, CcWaydroidPanel.issue,
      g_variant_new_b_TRUE, h] <;>
    split_ifs <;> simp_all

/-! ## The package affordance -/

/-- The loop of `handle_waydroid_package` touches no field of the panel that
`set_status_page` sets, and its flag ends as the initial flag or the presence
of an installed package. -/
theorem handle_waydroid_package_loop_flag (packages : List PkPackage) (installed : Bool)
    (self : CcWaydroidPanel) :
    (handle_waydroid_package_loop packages (installed, self)).1 =
      (installed || packages.any pk_installed) := by
  induction packages generalizing installed self with
  | nil => simp [handle_waydroid_package_loop]
  | cons p rest ih =>
    by_cases hp : pk_installed p = true
    · simp [handle_waydroid_package_loop, hp, ih]
    · simp [handle_waydroid_package_loop, hp, ih]

/-- The name the loop of `handle_waydroid_package` leaves on the install
button: the id of the last package that is not installed, or the name the
button had when there is none. -/
theorem handle_waydroid_package_loop_name (packages : List PkPackage) (installed : Bool)
    (self : CcWaydroidPanel) :
    (handle_waydroid_package_loop packages (installed, self)).2.install_waydroid_button_name =
      match (packages.filter (fun p => !pk_installed p)).getLast? with
      | some p => p.id
      | none => self.install_waydroid_button_name := by
  induction packages generalizing installed self with
  | nil => simp [handle_waydroid_package_loop]
  | cons p rest ih =>
    by_cases hp : pk_installed p = true
    · simp [handle_waydroid_package_loop, hp, ih]
    · simp only [handle_waydroid_package_loop, hp, ih, Bool.false_eq_true, if_false]
      have hf : (p :: rest).filter (fun p => !pk_installed p) =
          p :: rest.filter (fun p => !pk_installed p) := by
        simp [List.filter, hp]
      rw [hf]
      cases hr : rest.filter (fun p => !pk_installed p) with
      | nil => simp
      | cons q qs =>
        cases hl : (q :: qs).getLast? with
        | none => simp at hl
        | some r => simp [List.getLast?_cons_cons, hl]

/-- On a package tagged installed or available, the test by which
`handle_waydroid_package` takes a package as installed agrees with the tag. -/
theorem pk_installed_eq_tag (p : PkPackage)
    (h : p.info = PK_INFO_ENUM_INSTALLED ∨ p.info = PK_INFO_ENUM_AVAILABLE) :
    pk_installed p = decide (p.info = PK_INFO_ENUM_INSTALLED) := by
  rcases h with h | h <;>
    simp [pk_installed, h, PK_INFO_ENUM_INSTALLED, PK_INFO_ENUM_AVAILABLE]

/-- For a resolve result whose packages are each tagged installed or
available, the install-needed affordance is shown exactly when no package is
tagged installed and the enable-service affordance exactly when one is. -/
theorem resolved_packages_affordance (self : CcWaydroidPanel) (packages : List PkPackage)
    (htags : ∀ p ∈ packages,
      p.info = PK_INFO_ENUM_INSTALLED ∨ p.info = PK_INFO_ENUM_AVAILABLE) :
    ((waydroid_resolved_cb (PkResolveResult.packages packages) self).install_box_sensitive = true ∧
      (waydroid_resolved_cb (PkResolveResult.packages packages) self).install_box_opacity = 100 ∧
      (waydroid_resolved_cb (PkResolveResult.packages packages) self).install_status_page_title
        = "Waydroid package needs to be installed"
      ↔ ∀ p ∈ packages, p.info ≠ PK_INFO_ENUM_INSTALLED) ∧
    ((waydroid_resolved_cb (PkResolveResult.packages packages) self).install_box_sensitive = false ∧
      (waydroid_resolved_cb (PkResolveResult.packages packages) self).install_box_opacity = 0 ∧
      (waydroid_resolved_cb (PkResolveResult.packages packages) self).install_status_page_title
        = "Waydroid service needs to be enabled"
      ↔ ∃ p ∈ packages, p.info = PK_INFO_ENUM_INSTALLED) := by
  have hflag := handle_waydroid_package_loop_flag packages false self
  simp only [Bool.false_or] at hflag
  by_cases hany : packages.any pk_installed = true
  · obtain ⟨q, hq, hqi⟩ := List.any_eq_true.mp hany
    have hqt : q.info = PK_INFO_ENUM_INSTALLED := by
      rw [pk_installed_eq_tag q (htags q hq)] at hqi
      exact of_decide_eq_true hqi
    have hex : ∃ p ∈ packages, p.info = PK_INFO_ENUM_INSTALLED := ⟨q, hq, hqt⟩
    have hnall : ¬ ∀ p ∈ packages, p.info ≠ PK_INFO_ENUM_INSTALLED :=
      fun hall => hall q hq hqt
    simp [waydroid_resolved_cb, handle_waydroid_package, set_status_page, hflag, hany, hex,
      hnall]
  · have hall : ∀ p ∈ packages, p.info ≠ PK_INFO_ENUM_INSTALLED := by
      intro p hp hpt
      apply hany
      refine List.any_eq_true.mpr ⟨p, hp, ?_⟩
      rw [pk_installed_eq_tag p (htags p hp)]
      exact decide_eq_true hpt
    have hnex : ¬ ∃ p ∈ packages, p.info = PK_INFO_ENUM_INSTALLED := by
      rintro ⟨p, hp, hpi⟩
      exact hall p hp hpi
    have hany2 : packages.any pk_installed = false := by simpa using hany
    simp only [waydroid_resolved_cb, handle_waydroid_package, set_status_page, hflag, hany2]
    simp [hnex]
    exact hall

/-- C4 (code defect).  A resolve result holding one package whose info is
`PK_INFO_ENUM_LOW` holds no package tagged installed, yet
`handle_waydroid_package` shows the enable-service affordance (install box
insensitive, opacity 0.0, title "Waydroid service needs to be enabled"):
its test `(info & PK_INFO_ENUM_INSTALLED) == PK_INFO_ENUM_INSTALLED` holds
of every odd value of the enumeration. -/
theorem low_info_taken_as_installed (self : CcWaydroidPanel) (id : String) :
    (∀ p ∈ [({ info := PK_INFO_ENUM_LOW, id := id } : PkPackage)],
      p.info ≠ PK_INFO_ENUM_INSTALLED) ∧
    (waydroid_resolved_cb
        (PkResolveResult.packages [{ info := PK_INFO_ENUM_LOW, id := id }])
        self).install_box_sensitive = false ∧
    (waydroid_resolved_cb
        (PkResolveResult.packages [{ info := PK_INFO_ENUM_LOW, id := id }])
        self).install_box_opacity = 0 ∧
    (waydroid_resolved_cb
        (PkResolveResult.packages [{ info := PK_INFO_ENUM_LOW, id := id }])
        self).install_status_page_title = "Waydroid service needs to be enabled" := by
  refine ⟨?_, ?_, ?_, ?_⟩
  · intro p hp
    rw [List.mem_singleton.mp hp]
    simp [PK_INFO_ENUM_LOW, PK_INFO_ENUM_INSTALLED]
  · simp [waydroid_resolved_cb, handle_waydroid_package, handle_waydroid_package_loop,
      set_status_page, pk_installed, PK_INFO_ENUM_LOW, PK_INFO_ENUM_INSTALLED]
  · simp [waydroid_resolved_cb, handle_waydroid_package, handle_waydroid_package_loop,
      set_status_page, pk_installed, PK_INFO_ENUM_LOW, PK_INFO_ENUM_INSTALLED]
  · simp [waydroid_resolved_cb, handle_waydroid_package, handle_waydroid_package_loop,
      set_status_page, pk_installed, PK_INFO_ENUM_LOW, PK_INFO_ENUM_INSTALLED]

/-- C5 (as stated, refuted).  For the two sample candidates, neither of them
tagged installed, the name recorded on the install button and passed to the
install request is the id of the second candidate, not that of the first
one that is not tagged installed. -/
theorem install_target_is_not_first :
    (∀ p ∈ sample_packages, p.info ≠ PK_INFO_ENUM_INSTALLED) ∧
    (sample_packages.find? (fun p => decide (p.info ≠ PK_INFO_ENUM_INSTALLED))).map
        PkPackage.id
      = some "waydroid;1.4.2-1;arm64;droidian" ∧
    (handle_waydroid_package sample_panel sample_packages).install_waydroid_button_name
      = "waydroid;1.4.3-1;arm64;droidian" ∧
    (handle_waydroid_package sample_panel sample_packages).install_waydroid_button_name
      ≠ "waydroid;1.4.2-1;arm64;droidian" ∧
    (install_waydroid_clicked_cb
        (handle_waydroid_package sample_panel sample_packages)).issued
      = [Effect.pk_install ["waydroid;1.4.3-1;arm64;droidian"]] := by
  decide

/-- C5 (amended).  When every package of a resolve result is tagged
installed (`PK_INFO_ENUM_INSTALLED`) or available (`PK_INFO_ENUM_AVAILABLE`)
and at least one is not tagged installed, the name `handle_waydroid_package`
records on the install button, which `install_waydroid_clicked_cb` then
passes to the install request, is the id of the last package in result
order that is not tagged installed. -/
theorem install_target_is_last_not_installed (self : CcWaydroidPanel)
    (packages : List PkPackage) (target : PkPackage)
    (htags : ∀ p ∈ packages,
      p.info = PK_INFO_ENUM_INSTALLED ∨ p.info = PK_INFO_ENUM_AVAILABLE)
    (h : (packages.filter (fun p => decide (p.info ≠ PK_INFO_ENUM_INSTALLED))).getLast?
      = some target) :
    (handle_waydroid_package self packages).install_waydroid_button_name = target.id ∧
    (install_waydroid_clicked_cb (handle_waydroid_package self packages)).issued =
      (handle_waydroid_package self packages).issued ++ [Effect.pk_install [target.id]] := by
  have hfilter : packages.filter (fun p => !pk_installed p) =
      packages.filter (fun p => decide (p.info ≠ PK_INFO_ENUM_INSTALLED)) := by
    apply List.filter_congr
    intro p hp
    rw [pk_installed_eq_tag p (htags p hp)]
    simp
  have hname := handle_waydroid_package_loop_name packages false self
  rw [hfilter, h] at hname
  have h1 : (handle_waydroid_package self packages).install_waydroid_button_name
      = target.id := by
    simp only [handle_waydroid_package, set_status_page]
    split_ifs <;> exact hname
  refine ⟨h1, ?_⟩
  simp [install_waydroid_clicked_cb, CcWaydroidPanel.issue, h1]

/-- Witness for C5 (amended): an available package followed by an installed
one; the available one is recorded. -/
theorem install_target_is_last_not_installed_witness :
    (∀ p ∈ sample_packages_installed_last,
      p.info = PK_INFO_ENUM_INSTALLED ∨ p.info = PK_INFO_ENUM_AVAILABLE) ∧
    (sample_packages_installed_last.filter
        (fun p => decide (p.info ≠ PK_INFO_ENUM_INSTALLED))).getLast?
      = some { info := 2, id := "waydroid;1.4.3-1;arm64;droidian" } ∧
    (handle_waydroid_package sample_panel
        sample_packages_installed_last).install_waydroid_button_name
      = "waydroid;1.4.3-1;arm64;droidian" :=
  ⟨by decide, by decide,
   (install_target_is_last_not_installed sample_panel sample_packages_installed_last
      { info := 2, id := "waydroid;1.4.3-1;arm64;droidian" } (by decide) (by decide)).1⟩

/-- C6 (code defect).  After the install button is clicked and the install
request fails, the busy indicator is stopped and the install-needed
affordance is shown again, but the install button itself, made insensitive
by the click, is still insensitive: nothing sets it sensitive again. -/
theorem failed_install_leaves_button_insensitive (self : CcWaydroidPanel)
    (message : String) :
    (waydroid_installed_cb (Except.error message)
        (install_waydroid_clicked_cb self)).install_waydroid_button_sensitive = false ∧
    (waydroid_installed_cb (Except.error message)
        (install_waydroid_clicked_cb self)).install_waydroid_spinner = false ∧
    (waydroid_installed_cb (Except.error message)
        (install_waydroid_clicked_cb self)).install_box_sensitive = true ∧
    (waydroid_installed_cb (Except.error message)
        (install_waydroid_clicked_cb self)).install_box_opacity = 100 ∧
    (waydroid_installed_cb (Except.error message)
        (install_waydroid_clicked_cb self)).install_status_page_title
      = "Waydroid package needs to be installed" := by
  simp [waydroid_installed_cb, install_waydroid_clicked_cb, set_status_page,
    CcWaydroidPanel.issue]

/-! ## Application rows -/

/-- The function `gtk_switch_set_active` leaves the switch in the state asked
for. -/
theorem gtk_switch_set_active_active (sw : GtkSwitch) (is_active : Bool) :
    (gtk_switch_set_active sw is_active).1.active = is_active := by
  by_cases h : sw.active = is_active <;> simp [gtk_switch_set_active, h]

/-- The function `gtk_switch_set_active` runs no handler that is blocked. -/
theorem gtk_switch_set_active_blocked (sw : GtkSwitch) (is_active : Bool)
    (h : sw.blocked ≠ 0) : (gtk_switch_set_active sw is_active).2 = false := by
  by_cases ha : sw.active = is_active <;> simp [gtk_switch_set_active, ha, h]

/-- The function `gtk_switch_set_active` changes neither the sensitivity nor
the block count. -/
theorem gtk_switch_set_active_rest (sw : GtkSwitch) (is_active : Bool) :
    (gtk_switch_set_active sw is_active).1 = { sw with active := is_active } := by
  by_cases h : sw.active = is_active
  · cases sw
    simp_all [gtk_switch_set_active]
  · simp [gtk_switch_set_active, h]

/-- The row `cc_app_row_new` builds when the descriptor has a file name, the
file loads and holds `Name` and `Icon`: the files are left as they were. -/
theorem cc_app_row_new_eq (save_ok : String → Bool) (template : CcAppRow)
    (files : DesktopFiles) (app_info : GDesktopAppInfo) (filename : String)
    (desktop_file : GKeyFile) (name icon_name : String)
    (hfile : app_info.filename = some filename)
    (hload : files filename = some desktop_file)
    (hname : g_key_file_get_string desktop_file G_KEY_FILE_DESKTOP_KEY_NAME = some name)
    (hicon : g_key_file_get_string desktop_file G_KEY_FILE_DESKTOP_KEY_ICON = some icon_name) :
    cc_app_row_new save_ok template files app_info =
      (files, some
        { template with
          desktop_file := desktop_file
          filename := filename
          title := name
          icon := icon_name
          remove_application_button_sensitive :=
            if is_root_application filename then false
            else template.remove_application_button_sensitive
          show_in_launcher_switch :=
            { template.show_in_launcher_switch with
              active := !(g_strcmp0_eq
                (g_key_file_get_string desktop_file G_KEY_FILE_DESKTOP_KEY_NO_DISPLAY) "true") } }) := by
  simp only [cc_app_row_new, hfile, hload, hname, hicon, show_in_launcher_switch_set_active]
  have hb : ∀ (a s : Bool) (n : Nat) (v : Bool),
      (gtk_switch_set_active { active := a, sensitive := s, blocked := n + 1 } v).2 = false :=
    fun a s n v => gtk_switch_set_active_blocked _ _ (by simp)
  by_cases hr : is_root_application filename = true
  · simp [hr, hb, gtk_switch_set_active_rest, GtkSwitch.block, GtkSwitch.unblock]
  · simp [hr, hb, gtk_switch_set_active_rest, GtkSwitch.block, GtkSwitch.unblock]

/-- When `cc_app_row_new` builds a row, the descriptor has a file name, the
file loads and holds `Name` and `Icon`. -/
theorem cc_app_row_new_some (save_ok : String → Bool) (template : CcAppRow)
    (files : DesktopFiles) (app_info : GDesktopAppInfo) (row : CcAppRow)
    (h : (cc_app_row_new save_ok template files app_info).2 = some row) :
    ∃ filename desktop_file name icon_name,
      app_info.filename = some filename ∧ files filename = some desktop_file ∧
      g_key_file_get_string desktop_file G_KEY_FILE_DESKTOP_KEY_NAME = some name ∧
      g_key_file_get_string desktop_file G_KEY_FILE_DESKTOP_KEY_ICON = some icon_name := by
  cases hfile : app_info.filename with
  | none => simp [cc_app_row_new, hfile] at h
  | some filename =>
    cases hload : files filename with
    | none => simp [cc_app_row_new, hfile, hload] at h
    | some desktop_file =>
      cases hname : g_key_file_get_string desktop_file G_KEY_FILE_DESKTOP_KEY_NAME with
      | none => simp [cc_app_row_new, hfile, hload, hname] at h
      | some name =>
        cases hicon : g_key_file_get_string desktop_file G_KEY_FILE_DESKTOP_KEY_ICON with
        | none => simp [cc_app_row_new, hfile, hload, hname, hicon] at h
        | some icon_name => exact ⟨filename, desktop_file, name, icon_name, rfl, hload, hname, hicon⟩

/-- The loop of `is_root_application` succeeds exactly when the file name
contains an entry of the table. -/
theorem is_root_application_loop_iff (filename : String) (table : List String) :
    is_root_application_loop filename table = true ↔
      ∃ root ∈ table, root.toList <:+: filename.toList := by
  induction table with
  | nil => simp [is_root_application_loop]
  | cons root rest ih =>
    by_cases h : strrstr_found (some filename) root = true
    · simp only [is_root_application_loop, h, if_true, true_iff]
      exact ⟨root, List.mem_cons_self _ _, (strrstr_found_some_iff filename root).mp h⟩
    · simp only [is_root_application_loop, h, if_false, ih, Bool.false_eq_true]
      constructor
      · rintro ⟨r, hr, hi⟩
        exact ⟨r, List.mem_cons_of_mem _ hr, hi⟩
      · rintro ⟨r, hr, hi⟩
        rcases List.mem_cons.mp hr with hrr | hrr
        · subst hrr
          exact absurd ((strrstr_found_some_iff filename r).mpr hi) h
        · exact ⟨r, hrr, hi⟩

/-- C7 (code defect).  For the launch command
"waydroid app launch com.teslacoilsw.launcher" the command run on
confirmation is "waydroid app remove com.teslacoilsw.removeer": the word
`launch` inside the application identifier is replaced too, so the command
is not the launch command with only its verb changed. -/
theorem remove_command_rewrites_identifier :
    g_key_file_get_string sample_launcher_row.desktop_file G_KEY_FILE_DESKTOP_KEY_EXEC
      = some ("" ++ "waydroid app launch " ++ "com.teslacoilsw.launcher") ∧
    (remove_application_dialog_cb "remove" sample_launcher_row).issued
      = [Effect.spawn_command_line "waydroid app remove com.teslacoilsw.removeer"] ∧
    (remove_application_dialog_cb "remove" sample_launcher_row).issued
      ≠ [Effect.spawn_command_line
          ("" ++ "waydroid app remove " ++ "com.teslacoilsw.launcher")] := by
  decide

/-- C8.  For a row `cc_app_row_new` builds from a descriptor with file name
`filename`: when `filename` contains one of the 12 entries of
`ROOT_APPLICATIONS` the remove control is insensitive, and when it contains
none the remove control is left as the template built it (in particular
enabled when the template has it enabled).  The position of the row in the
list is no input of the constructor. -/
theorem root_application_remove_control (save_ok : String → Bool) (template : CcAppRow)
    (files : DesktopFiles) (app_info : GDesktopAppInfo) (filename : String) (row : CcAppRow)
    (hfile : app_info.filename = some filename)
    (hrow : (cc_app_row_new save_ok template files app_info).2 = some row) :
    ROOT_APPLICATIONS.length = 12 ∧
    ((∃ root ∈ ROOT_APPLICATIONS, root.toList <:+: filename.toList) →
      row.remove_application_button_sensitive = false) ∧
    ((¬ ∃ root ∈ ROOT_APPLICATIONS, root.toList <:+: filename.toList) →
      row.remove_application_button_sensitive =
        template.remove_application_button_sensitive) ∧
    ((¬ ∃ root ∈ ROOT_APPLICATIONS, root.toList <:+: filename.toList) →
      template.remove_application_button_sensitive = true →
      row.remove_application_button_sensitive = true) := by
  obtain ⟨filename2, desktop_file, name, icon_name, hf2, hload, hname, hicon⟩ :=
    cc_app_row_new_some save_ok template files app_info row hrow
  have hff : filename2 = filename := by
    rw [hfile] at hf2
    exact (Option.some.inj hf2).symm
  subst hff
  rw [cc_app_row_new_eq save_ok template files app_info filename2 desktop_file name icon_name
    hfile hload hname hicon] at hrow
  have hrow2 := Option.some.inj hrow
  have hiff := is_root_application_loop_iff filename2 ROOT_APPLICATIONS
  refine ⟨rfl, ?_, ?_, ?_⟩
  · intro hex
    have hroot : is_root_application filename2 = true := hiff.mpr hex
    rw [← hrow2]
    simp [hroot]
  · intro hnex
    have hroot : ¬ is_root_application filename2 = true := fun h => hnex (hiff.mp h)
    rw [← hrow2]
    simp [hroot]
  · intro hnex ht
    have hroot : ¬ is_root_application filename2 = true := fun h => hnex (hiff.mp h)
    rw [← hrow2]
    simp [hroot, ht]

/-- Witness for C8: the settings application, a system component, gets an
insensitive remove control. -/
theorem root_application_remove_control_witness :
    sample_app_info.filename =
      some "/home/droidian/.local/share/applications/waydroid.com.android.settings.desktop" ∧
    (cc_app_row_new sample_env.save_ok sample_app_row sample_files sample_app_info).2
      = some sample_settings_row ∧
    sample_settings_row.remove_application_button_sensitive = false :=
  ⟨by decide, by decide,
   (root_application_remove_control sample_env.save_ok sample_app_row sample_files
      sample_app_info
      "/home/droidian/.local/share/applications/waydroid.com.android.settings.desktop"
      sample_settings_row (by decide) (by decide)).2.1
     ⟨"com.android.settings", by decide, by decide⟩⟩

/-- Reading a key after `g_key_file_set_value` on it yields the value set. -/
theorem g_key_file_get_set_same (key_file : GKeyFile) (key value : String) :
    g_key_file_get_string (g_key_file_set_value key_file key value) key = some value := by
  induction key_file with
  | nil => simp [g_key_file_set_value, g_key_file_get_string]
  | cons kv rest ih =>
    obtain ⟨k, v⟩ := kv
    by_cases h : k = key
    · simp [g_key_file_set_value, g_key_file_get_string, h]
    · simp [g_key_file_set_value, g_key_file_get_string, h, ih]

/-- Reading another key after `g_key_file_set_value` yields what it held. -/
theorem g_key_file_get_set_other (key_file : GKeyFile) (key value other : String)
    (hne : other ≠ key) :
    g_key_file_get_string (g_key_file_set_value key_file key value) other =
      g_key_file_get_string key_file other := by
  induction key_file with
  | nil =>
    have hne2 : ¬ key = other := fun e => hne e.symm
    simp [g_key_file_set_value, g_key_file_get_string, hne2]
  | cons kv rest ih =>
    obtain ⟨k, v⟩ := kv
    by_cases h : k = key
    · subst h
      have hne2 : ¬ k = other := fun e => hne e.symm
      simp [g_key_file_set_value, g_key_file_get_string, hne2]
    · by_cases ho : k = other
      · subst ho
        simp [g_key_file_set_value, g_key_file_get_string, h]
      · simp [g_key_file_set_value, g_key_file_get_string, h, ho, ih]

/-- C9.  Let `row` be a row `cc_app_row_new` built from a descriptor, and let
`show_in_launcher_active_cb` run with the switch in state `a` and the save
succeed.  The handler writes `NoDisplay` as the word for `not a`, and
building a row again from the saved file succeeds, with a switch in state `a`
and the same `NoDisplay` value as the one written. -/
theorem visibility_flag_round_trip (save_ok : String → Bool) (template template2 : CcAppRow)
    (files : DesktopFiles) (app_info : GDesktopAppInfo) (row : CcAppRow) (a : Bool)
    (hrow : (cc_app_row_new save_ok template files app_info).2 = some row)
    (hsave : save_ok row.filename = true) :
    g_key_file_get_string
        (show_in_launcher_active_cb save_ok (cc_app_row_new save_ok template files app_info).1
          { row with show_in_launcher_switch :=
              { row.show_in_launcher_switch with active := a } }).2.desktop_file
        G_KEY_FILE_DESKTOP_KEY_NO_DISPLAY = some (if !a then "true" else "false") ∧
    ∃ row2,
      (cc_app_row_new save_ok template2
        (show_in_launcher_active_cb save_ok (cc_app_row_new save_ok template files app_info).1
          { row with show_in_launcher_switch :=
              { row.show_in_launcher_switch with active := a } }).1 app_info).2 = some row2 ∧
      row2.show_in_launcher_switch.active = a ∧
      g_key_file_get_string row2.desktop_file G_KEY_FILE_DESKTOP_KEY_NO_DISPLAY
        = some (if !a then "true" else "false") := by
  obtain ⟨filename, desktop_file, name, icon_name, hfile, hload, hname, hicon⟩ :=
    cc_app_row_new_some save_ok template files app_info row hrow
  have heq := cc_app_row_new_eq save_ok template files app_info filename desktop_file name
    icon_name hfile hload hname hicon
  rw [heq] at hrow
  have hrow2 := Option.some.inj hrow
  have hfn : row.filename = filename := by rw [← hrow2]
  have hdf : row.desktop_file = desktop_file := by rw [← hrow2]
  rw [hfn] at hsave
  rw [heq]
  have hcb : show_in_launcher_active_cb save_ok files
      { row with show_in_launcher_switch := { row.show_in_launcher_switch with active := a } } =
      (files.save filename
          (g_key_file_set_boolean desktop_file G_KEY_FILE_DESKTOP_KEY_NO_DISPLAY (!a)),
        { row with
          show_in_launcher_switch := { row.show_in_launcher_switch with active := a }
          desktop_file :=
            g_key_file_set_boolean desktop_file G_KEY_FILE_DESKTOP_KEY_NO_DISPLAY (!a) }) := by
    simp [show_in_launcher_active_cb, hfn, hdf, hsave]
  rw [hcb]
  have hnd : g_key_file_get_string
      (g_key_file_set_boolean desktop_file G_KEY_FILE_DESKTOP_KEY_NO_DISPLAY (!a))
      G_KEY_FILE_DESKTOP_KEY_NO_DISPLAY = some (if !a then "true" else "false") := by
    simp only [g_key_file_set_boolean]
    rw [g_key_file_get_set_same]
  have hname2 : g_key_file_get_string
      (g_key_file_set_boolean desktop_file G_KEY_FILE_DESKTOP_KEY_NO_DISPLAY (!a))
      G_KEY_FILE_DESKTOP_KEY_NAME = some name := by
    simp only [g_key_file_set_boolean]
    rw [g_key_file_get_set_other _ _ _ _ (by decide), hname]
  have hicon2 : g_key_file_get_string
      (g_key_file_set_boolean desktop_file G_KEY_FILE_DESKTOP_KEY_NO_DISPLAY (!a))
      G_KEY_FILE_DESKTOP_KEY_ICON = some icon_name := by
    simp only [g_key_file_set_boolean]
    rw [g_key_file_get_set_other _ _ _ _ (by decide), hicon]
  have hload2 : (files.save filename
      (g_key_file_set_boolean desktop_file G_KEY_FILE_DESKTOP_KEY_NO_DISPLAY (!a))) filename
      = some (g_key_file_set_boolean desktop_file G_KEY_FILE_DESKTOP_KEY_NO_DISPLAY (!a)) := by
    simp [DesktopFiles.save]
  refine ⟨hnd, ?_⟩
  rw [cc_app_row_new_eq save_ok template2 _ app_info filename _ name icon_name hfile hload2
    hname2 hicon2]
  refine ⟨_, rfl, ?_, hnd⟩
  simp only [hnd]
  cases a <;> decide

/-- Witness for C9: hiding the settings application writes `NoDisplay=true`. -/
theorem visibility_flag_round_trip_witness :
    (cc_app_row_new sample_env.save_ok sample_app_row sample_files sample_app_info).2
      = some sample_settings_row ∧
    sample_env.save_ok sample_settings_row.filename = true ∧
    g_key_file_get_string
        (show_in_launcher_active_cb sample_env.save_ok
          (cc_app_row_new sample_env.save_ok sample_app_row sample_files sample_app_info).1
          { sample_settings_row with show_in_launcher_switch :=
              { sample_settings_row.show_in_launcher_switch with active := false } }).2.desktop_file
        G_KEY_FILE_DESKTOP_KEY_NO_DISPLAY = some "true" :=
  ⟨by decide, by decide,
   (visibility_flag_round_trip sample_env.save_ok sample_app_row sample_app_row sample_files
      sample_app_info sample_settings_row false (by decide) (by decide)).1⟩

/-! ## The sorted list of applications -/

/-- A string compares equal to itself. -/
theorem strcmpChars_self (a : List Char) : strcmpChars a a = 0 := by
  induction a with
  | nil => rfl
  | cons x xs ih => simp [strcmpChars, ih]

/-- The test of `check_available_apps` on `Exec` agrees with `exec_contains`. -/
theorem strrstr_found_eq_exec_contains (needle : String) (d : GDesktopAppInfo) :
    strrstr_found d.Exec needle = exec_contains needle d := by
  cases he : d.Exec with
  | none => simp [strrstr_found, exec_contains, he]
  | some e =>
    have h := strrstr_found_some_iff e needle
    by_cases hc : needle.toList <:+: e.toList
    · rw [h.mpr hc]
      simp only [exec_contains, he]
      exact (decide_eq_true hc).symm
    · have hf : strrstr_found (some e) needle = false := by
        cases hs : strrstr_found (some e) needle with
        | false => rfl
        | true => exact absurd (h.mp hs) hc
      rw [hf]
      simp only [exec_contains, he]
      exact (decide_eq_false hc).symm

/-- The order `name_le` holds exactly of two named descriptors the first of
which does not compare greater than the second. -/
theorem name_le_iff (a b : GDesktopAppInfo) :
    name_le a b = true ↔
      ∃ x y, a.Name = some x ∧ b.Name = some y ∧ strcmp x y ≤ 0 := by
  cases ha : a.Name with
  | none => simp [name_le, ha]
  | some x =>
    cases hb : b.Name with
    | none => simp [name_le, ha, hb]
    | some y => simp [name_le, ha, hb]

/-- Inserting a named descriptor into a list of named descriptors returns:
the result holds the new descriptor and the old ones, stays ordered by name
if the list was, and has the new descriptor first among those of its name. -/
theorem g_list_insert_sorted_named (list : List GDesktopAppInfo) (data : GDesktopAppInfo)
    (hd : data.Name ≠ none) (hl : ∀ x ∈ list, x.Name ≠ none) :
    ∃ inserted, g_list_insert_sorted sort_applications list data = some inserted ∧
      inserted.Perm (data :: list) ∧
      (list.Pairwise (fun a b => name_le a b = true) →
        inserted.Pairwise (fun a b => name_le a b = true)) ∧
      ∀ name, inserted.filter (fun d => d.Name == some name) =
        (if data.Name = some name then data :: list.filter (fun d => d.Name == some name)
         else list.filter (fun d => d.Name == some name)) := by
  obtain ⟨nd, hnd⟩ := Option.ne_none_iff_exists'.mp hd
  induction list with
  | nil =>
    refine ⟨[data], rfl, List.Perm.refl _, fun _ => List.pairwise_singleton _ _, ?_⟩
    intro name
    by_cases h : data.Name = some name
    · rw [List.filter_cons_of_pos (by simpa using h)]
      simp [h]
    · rw [List.filter_cons_of_neg (by simpa using h)]
      simp [h]
  | cons x rest ih =>
    obtain ⟨nx, hnx⟩ := Option.ne_none_iff_exists'.mp (hl x (List.mem_cons_self _ _))
    have hrest : ∀ y ∈ rest, y.Name ≠ none := fun y hy => hl y (List.mem_cons_of_mem _ hy)
    obtain ⟨ins, hins, hperm, hpair, hfilt⟩ := ih hrest
    have hcmp : sort_applications data x = some (strcmp nd nx) := by
      simp [sort_applications, hnd, hnx]
    by_cases hgt : strcmp nd nx > 0
    · refine ⟨x :: ins, ?_, ?_, ?_, ?_⟩
      · simp [g_list_insert_sorted, hcmp, hgt, hins]
      · exact (List.Perm.cons x hperm).trans (List.Perm.swap data x rest)
      · intro hp
        rw [List.pairwise_cons] at hp
        rw [List.pairwise_cons]
        refine ⟨?_, hpair hp.2⟩
        intro y hy
        rcases List.mem_cons.mp (hperm.mem_iff.mp hy) with hyd | hyr
        · subst hyd
          exact (name_le_iff x y).mpr ⟨nx, nd, hnx, hnd, strcmpChars_total _ _ hgt⟩
        · exact hp.1 y hyr
      · intro name
        by_cases hdn : data.Name = some name
        · have hx : ¬ x.Name = some name := by
            intro hx
            have h1 : nd = name := by
              rw [hnd] at hdn
              exact Option.some.inj hdn
            have h2 : nx = name := by
              rw [hnx] at hx
              exact Option.some.inj hx
            have hsame : strcmp nd nx = 0 := by
              rw [h1, h2]
              exact strcmpChars_self _
            omega
          rw [List.filter_cons_of_neg (by simpa using hx), hfilt,
            List.filter_cons_of_neg (by simpa using hx)]
        · by_cases hx : x.Name = some name
          · rw [List.filter_cons_of_pos (by simpa using hx), hfilt,
              List.filter_cons_of_pos (by simpa using hx)]
            simp [hdn]
          · rw [List.filter_cons_of_neg (by simpa using hx), hfilt,
              List.filter_cons_of_neg (by simpa using hx)]
    · refine ⟨data :: x :: rest, ?_, List.Perm.refl _, ?_, ?_⟩
      · simp [g_list_insert_sorted, hcmp, hgt]
      · intro hp
        have hle : strcmp nd nx ≤ 0 := by omega
        rw [List.pairwise_cons]
        refine ⟨?_, hp⟩
        intro y hy
        rcases List.mem_cons.mp hy with hyx | hyr
        · subst hyx
          exact (name_le_iff data y).mpr ⟨nd, nx, hnd, hnx, hle⟩
        · rw [List.pairwise_cons] at hp
          obtain ⟨x2, y2, hx2, hy2, hxy⟩ := (name_le_iff x y).mp (hp.1 y hyr)
          have hx3 : x2 = nx := by
            rw [hnx] at hx2
            exact (Option.some.inj hx2).symm
          subst hx3
          exact (name_le_iff data y).mpr
            ⟨nd, y2, hnd, hy2, strcmpChars_trans _ _ _ hle hxy⟩
      · intro name
        by_cases hdn : data.Name = some name
        · rw [List.filter_cons_of_pos (by simpa using hdn)]
          simp [hdn]
        · rw [List.filter_cons_of_neg (by simpa using hdn)]
          simp [hdn]

/-- The inner loop of `check_available_apps` returns when every descriptor
with a launch command has a name: it collects these descriptors, keeps the
list ordered by name, puts the later of two equal names first, and raises
the flag `fdroid_installed` for a descriptor whose `Exec` names the store. -/
theorem check_available_apps_inner_named (env : Env) (ids : List String)
    (to_sort : List GDesktopAppInfo) (fdroid_installed : Bool)
    (hacc : ∀ d ∈ to_sort, d.Name ≠ none)
    (hids : ∀ d ∈ (ids.filterMap env.g_desktop_app_info_new).filter
      (exec_contains "waydroid app launch "), d.Name ≠ none) :
    ∃ collected,
      check_available_apps_inner env ids (to_sort, fdroid_installed) =
        some (collected, fdroid_installed ||
          (ids.filterMap env.g_desktop_app_info_new).any
            (exec_contains "org.fdroid.fdroid")) ∧
      collected.Perm (to_sort ++ (ids.filterMap env.g_desktop_app_info_new).filter
          (exec_contains "waydroid app launch ")) ∧
      (to_sort.Pairwise (fun a b => name_le a b = true) →
        collected.Pairwise (fun a b => name_le a b = true)) ∧
      ∀ name, collected.filter (fun d => d.Name == some name) =
        (((ids.filterMap env.g_desktop_app_info_new).filter
            (exec_contains "waydroid app launch ")).filter
              (fun d => d.Name == some name)).reverse
          ++ to_sort.filter (fun d => d.Name == some name) := by
  induction ids generalizing to_sort fdroid_installed with
  | nil =>
    exact ⟨to_sort, by simp [check_available_apps_inner], by simp, fun h => h, by simp⟩
  | cons id rest ih =>
    cases hn : env.g_desktop_app_info_new id with
    | none =>
      have hfm : (id :: rest).filterMap env.g_desktop_app_info_new =
          rest.filterMap env.g_desktop_app_info_new := by
        simp [List.filterMap_cons, hn]
      rw [hfm] at hids ⊢
      simp only [check_available_apps_inner, hn]
      exact ih to_sort fdroid_installed hacc hids
    | some d =>
      have hfm : (id :: rest).filterMap env.g_desktop_app_info_new =
          d :: rest.filterMap env.g_desktop_app_info_new := by
        simp [List.filterMap_cons, hn]
      rw [hfm] at hids ⊢
      simp only [check_available_apps_inner, hn, strrstr_found_eq_exec_contains,
        List.any_cons]
      by_cases hl : exec_contains "waydroid app launch " d = true
      · rw [List.filter_cons_of_pos hl] at hids ⊢
        have hd : d.Name ≠ none := hids d (List.mem_cons_self _ _)
        have hrest : ∀ e ∈ (rest.filterMap env.g_desktop_app_info_new).filter
            (exec_contains "waydroid app launch "), e.Name ≠ none :=
          fun e he => hids e (List.mem_cons_of_mem _ he)
        obtain ⟨ins, hins, hperm, hpair, hfilt⟩ := g_list_insert_sorted_named to_sort d hd hacc
        have hinsn : ∀ e ∈ ins, e.Name ≠ none := by
          intro e he
          rcases List.mem_cons.mp (hperm.mem_iff.mp he) with h1 | h1
          · rw [h1]
            exact hd
          · exact hacc e h1
        obtain ⟨collected, hc, hcperm, hcpair, hcfilt⟩ := ih ins
          (if exec_contains "org.fdroid.fdroid" d = true then true else fdroid_installed)
          hinsn hrest
        refine ⟨collected, ?_, ?_, fun hp => hcpair (hpair hp), ?_⟩
        · simp only [hl, if_true, hins, hc]
          cases exec_contains "org.fdroid.fdroid" d <;> cases fdroid_installed <;> simp
        · refine hcperm.trans ?_
          have h1 := hperm.append_right ((rest.filterMap env.g_desktop_app_info_new).filter
            (exec_contains "waydroid app launch "))
          refine h1.trans ?_
          exact (@List.perm_middle _ d to_sort
            ((rest.filterMap env.g_desktop_app_info_new).filter
              (exec_contains "waydroid app launch "))).symm
        · intro name
          rw [hcfilt, hfilt]
          by_cases hdn : d.Name = some name
          · rw [List.filter_cons_of_pos (by simpa using hdn)]
            simp [hdn]
          · rw [List.filter_cons_of_neg (by simpa using hdn)]
            simp [hdn]
      · have hl2 : exec_contains "waydroid app launch " d = false := by simpa using hl
        rw [List.filter_cons_of_neg hl] at hids ⊢
        obtain ⟨collected, hc, hcperm, hcpair, hcfilt⟩ := ih to_sort
          (if exec_contains "org.fdroid.fdroid" d = true then true else fdroid_installed)
          hacc hids
        refine ⟨collected, ?_, hcperm, hcpair, hcfilt⟩
        simp only [hl2, Bool.false_eq_true, if_false, hc]
        cases exec_contains "org.fdroid.fdroid" d <;> cases fdroid_installed <;> simp

/-- The outer loop of `check_available_apps` returns when every descriptor
with a launch command has a name, with the same results as the inner loop. -/
theorem check_available_apps_outer_named (env : Env) (apps : List (List String))
    (to_sort : List GDesktopAppInfo) (fdroid_installed : Bool)
    (hacc : ∀ d ∈ to_sort, d.Name ≠ none)
    (happs : ∀ d ∈ (apps.flatten.filterMap env.g_desktop_app_info_new).filter
      (exec_contains "waydroid app launch "), d.Name ≠ none) :
    ∃ collected,
      check_available_apps_outer env apps (to_sort, fdroid_installed) =
        some (collected, fdroid_installed ||
          (apps.flatten.filterMap env.g_desktop_app_info_new).any
            (exec_contains "org.fdroid.fdroid")) ∧
      collected.Perm (to_sort ++ (apps.flatten.filterMap env.g_desktop_app_info_new).filter
          (exec_contains "waydroid app launch ")) ∧
      (to_sort.Pairwise (fun a b => name_le a b = true) →
        collected.Pairwise (fun a b => name_le a b = true)) ∧
      ∀ name, collected.filter (fun d => d.Name == some name) =
        (((apps.flatten.filterMap env.g_desktop_app_info_new).filter
            (exec_contains "waydroid app launch ")).filter
              (fun d => d.Name == some name)).reverse
          ++ to_sort.filter (fun d => d.Name == some name) := by
  induction apps generalizing to_sort fdroid_installed with
  | nil =>
    exact ⟨to_sort, by simp [check_available_apps_outer], by simp, fun h => h, by simp⟩
  | cons ids rest ih =>
    have hsplit : ((ids :: rest).flatten.filterMap env.g_desktop_app_info_new).filter
        (exec_contains "waydroid app launch ") =
        (ids.filterMap env.g_desktop_app_info_new).filter
          (exec_contains "waydroid app launch ") ++
        (rest.flatten.filterMap env.g_desktop_app_info_new).filter
          (exec_contains "waydroid app launch ") := by
      simp [List.filterMap_append, List.filter_append]
    rw [hsplit] at happs ⊢
    obtain ⟨c1, h1, hperm1, hpair1, hfilt1⟩ := check_available_apps_inner_named env ids
      to_sort fdroid_installed hacc (fun d hd => happs d (List.mem_append_left _ hd))
    have hc1 : ∀ d ∈ c1, d.Name ≠ none := by
      intro d hd
      rcases List.mem_append.mp (hperm1.mem_iff.mp hd) with h | h
      · exact hacc d h
      · exact happs d (List.mem_append_left _ h)
    obtain ⟨c2, h2, hperm2, hpair2, hfilt2⟩ := ih c1
      (fdroid_installed ||
        (ids.filterMap env.g_desktop_app_info_new).any (exec_contains "org.fdroid.fdroid"))
      hc1 (fun d hd => happs d (List.mem_append_right _ hd))
    refine ⟨c2, ?_, ?_, fun hp => hpair2 (hpair1 hp), ?_⟩
    · simp only [check_available_apps_outer, h1, h2]
      simp [List.filterMap_append, List.any_append, Bool.or_assoc]
    · refine hperm2.trans ?_
      rw [← List.append_assoc]
      exact hperm1.append_right _
    · intro name
      rw [hfilt2, hfilt1]
      simp [List.filter_append, List.reverse_append]

/-- When every enumerated descriptor with a launch command has a name, the
loops of `check_available_apps` return: the list `to_sort` is a permutation
of the enumerated descriptors whose `Exec` contains "waydroid app launch ",
ordered by name, and the flag tells whether some `Exec` names the store. -/
theorem check_available_apps_scan_named (env : Env)
    (hnamed : ∀ d ∈ (env.search.flatten.filterMap env.g_desktop_app_info_new).filter
      (exec_contains "waydroid app launch "), d.Name ≠ none) :
    ∃ to_sort,
      check_available_apps_scan env =
        some (to_sort, (env.search.flatten.filterMap env.g_desktop_app_info_new).any
          (exec_contains "org.fdroid.fdroid")) ∧
      to_sort.Perm ((env.search.flatten.filterMap env.g_desktop_app_info_new).filter
          (exec_contains "waydroid app launch ")) ∧
      to_sort.Pairwise (fun a b => name_le a b = true) ∧
      ∀ name, to_sort.filter (fun d => d.Name == some name) =
        (((env.search.flatten.filterMap env.g_desktop_app_info_new).filter
            (exec_contains "waydroid app launch ")).filter
              (fun d => d.Name == some name)).reverse := by
  obtain ⟨c, hc, hperm, hpair, hfilt⟩ := check_available_apps_outer_named env env.search []
    false (by simp) hnamed
  refine ⟨c, ?_, ?_, hpair List.Pairwise.nil, ?_⟩
  · simpa [check_available_apps_scan] using hc
  · simpa using hperm
  · intro name
    simpa using hfilt name

/-- C10 (code defect).  Two descriptors with a launch command are
enumerated, the first built from a desktop file without a `Name` key.  The
comparator `sort_applications` hands the missing name to `strcmp`, so the
process dies while the second descriptor is inserted: the loops of
`check_available_apps` do not return and no list is handed to row
construction. -/
theorem nameless_descriptor_stops_the_scan :
    ((sample_env_nameless.search.flatten.filterMap
        sample_env_nameless.g_desktop_app_info_new).filter
          (exec_contains "waydroid app launch ")).map (fun d => (d.Name, d.Exec)) =
      [(none, some "waydroid app launch org.example.one"),
       (some "Notes", some "waydroid app launch org.example.two")] ∧
    check_available_apps_scan sample_env_nameless = none := by
  decide

/-! ## The store bootstrap row in the list -/

/-- The call `g_list_foreach (to_sort, add_application, self)` appends
application rows to the group and nothing else. -/
theorem g_list_foreach_add_application_rows (env : Env) (to_sort : List GDesktopAppInfo)
    (st : DesktopFiles × CcWaydroidPanel) :
    ∃ rows : List CcAppRow,
      (g_list_foreach_add_application env to_sort st).2.android_applications =
        st.2.android_applications ++ rows.map Row.app := by
  induction to_sort generalizing st with
  | nil => exact ⟨[], by simp [g_list_foreach_add_application]⟩
  | cons d rest ih =>
    obtain ⟨rows, hrows⟩ := ih (add_application env d st)
    simp only [g_list_foreach_add_application]
    cases hr : (cc_app_row_new env.save_ok env.app_row_template st.1 d).2 with
    | none =>
      refine ⟨rows, ?_⟩
      rw [hrows]
      simp [add_application, hr]
    | some row =>
      refine ⟨row :: rows, ?_⟩
      rw [hrows]
      simp [add_application, hr]

/-- When every enumerated descriptor with a launch command has a name,
`check_available_apps` returns, and the rows it adds to the applications
group are: one store bootstrap row exactly when no enumerated descriptor has
an `Exec` containing "org.fdroid.fdroid", followed by application rows only. -/
theorem check_available_apps_bootstrap_row (env : Env) (files : DesktopFiles)
    (self : CcWaydroidPanel)
    (hnamed : ∀ d ∈ (env.search.flatten.filterMap env.g_desktop_app_info_new).filter
      (exec_contains "waydroid app launch "), d.Name ≠ none) :
    ∃ rows : List CcAppRow,
      (check_available_apps env files self).map (fun r => r.2.android_applications) =
        some (self.android_applications ++
          (if (env.search.flatten.filterMap env.g_desktop_app_info_new).any
                (exec_contains "org.fdroid.fdroid") then []
           else [Row.fdroid env.fdroid_row_template]) ++
          rows.map Row.app) := by
  obtain ⟨to_sort, hscan, _, _, _⟩ := check_available_apps_scan_named env hnamed
  simp only [check_available_apps, hscan, Option.map_some']
  cases hany : (env.search.flatten.filterMap env.g_desktop_app_info_new).any
      (exec_contains "org.fdroid.fdroid") with
  | true =>
    obtain ⟨rows, hrows⟩ := g_list_foreach_add_application_rows env to_sort (files, self)
    exact ⟨rows, by simpa using hrows⟩
  | false =>
    obtain ⟨rows, hrows⟩ := g_list_foreach_add_application_rows env to_sort
      (files, { self with
        android_applications :=
          self.android_applications ++ [Row.fdroid env.fdroid_row_template] })
    exact ⟨rows, by simpa using hrows⟩

/-- C11 (code defect).  Two descriptors with a launch command are
enumerated, the first without a `Name`, and no `Exec` contains
"org.fdroid.fdroid".  The process dies in the comparator while the
applications are collected, so `check_available_apps` does not return and
the store bootstrap row is never added; `cc_waydroid_panel_init`, which
calls it, does not return either. -/
theorem nameless_descriptor_prevents_bootstrap_row :
    (sample_env_nameless.search.flatten.filterMap
        sample_env_nameless.g_desktop_app_info_new).any
          (exec_contains "org.fdroid.fdroid") = false ∧
    (check_available_apps sample_env_nameless sample_files sample_panel).isNone = true ∧
    (cc_waydroid_panel_init sample_env_nameless sample_files sample_panel).isNone = true := by
  decide

/-! ## Property refresh -/

/-- The panel `get_prop_watch` returns: the toggle of the property is set
from the line with its handler blocked, and nothing else changes. -/
theorem get_prop_watch_eq (env : Env) (prop : String) (line : Option String)
    (self : CcWaydroidPanel) :
    get_prop_watch env prop line self =
      (if prop = "uevent" then
        { self with
          setting_uevent_switch :=
            { self.setting_uevent_switch with active := strrstr_found line "true" } }
      else if prop = "suspend" then
        { self with
          setting_suspend_switch :=
            { self.setting_suspend_switch with active := strrstr_found line "true" } }
      else self) := by
  have hb : ∀ (a s : Bool) (n : Nat) (v : Bool),
      (gtk_switch_set_active { active := a, sensitive := s, blocked := n + 1 } v).2 = false :=
    fun a s n v => gtk_switch_set_active_blocked _ _ (by simp)
  by_cases hu : prop = "uevent"
  · simp [get_prop_watch, g_strcmp0_eq, hu, setting_uevent_switch_set_active, hb,
      gtk_switch_set_active_rest, GtkSwitch.block, GtkSwitch.unblock]
  · by_cases hs : prop = "suspend"
    · simp [get_prop_watch, g_strcmp0_eq, hs, setting_suspend_switch_set_active, hb,
        gtk_switch_set_active_rest, GtkSwitch.block, GtkSwitch.unblock]
    · simp [get_prop_watch, g_strcmp0_eq, hu, hs]

/-- C12.  For every line read from the helper (`none` when nothing was
read), `get_prop_watch` for "uevent" leaves the panel as it was except that
the uevent toggle is active exactly when the line contains "true"; for
"suspend" the same holds of the suspend toggle; for any other property
nothing changes.  No request is issued, so no change handler has run, and
the other toggle and both block counts are as before.  A line contains
"true" when these characters occur in it one after the other; the line
"true\n" gives active and the line "false\n" gives inactive. -/
theorem get_prop_watch_effect (env : Env) (prop : String) (line : Option String)
    (self : CcWaydroidPanel) :
    get_prop_watch env prop line self =
      (if prop = "uevent" then
        { self with
          setting_uevent_switch :=
            { self.setting_uevent_switch with active := strrstr_found line "true" } }
      else if prop = "suspend" then
        { self with
          setting_suspend_switch :=
            { self.setting_suspend_switch with active := strrstr_found line "true" } }
      else self) ∧
    (get_prop_watch env prop line self).issued = self.issued ∧
    (strrstr_found line "true" = true ↔
      ∃ text, line = some text ∧ "true".toList <:+: text.toList) ∧
    strrstr_found (some "true\n") "true" = true ∧
    strrstr_found (some "false\n") "true" = false := by
  have hmain := get_prop_watch_eq env prop line self
  refine ⟨hmain, ?_, ?_, by decide, by decide⟩
  · rw [hmain]
    split_ifs <;> rfl
  · cases line with
    | none => simp [strrstr_found]
    | some text =>
      rw [strrstr_found_some_iff]
      constructor
      · intro h
        exact ⟨text, rfl, h⟩
      · rintro ⟨t, ht, h⟩
        rw [Option.some.inj ht]
        exact h

/-! ## The shared folder -/

/-- A node that exists is still found after nodes are appended. -/
theorem lookup_nodes_append_of_some (nodes more : List (List String × Node))
    (path : List String) (node : Node) (h : lookup_nodes nodes path = some node) :
    lookup_nodes (nodes ++ more) path = some node := by
  induction nodes with
  | nil => simp [lookup_nodes] at h
  | cons e rest ih =>
    obtain ⟨p, n⟩ := e
    by_cases hp : p = path
    · simpa [lookup_nodes, hp] using h
    · simp only [List.cons_append, lookup_nodes, hp, if_false] at h ⊢
      exact ih h

/-- A path that does not exist is looked up in the appended nodes. -/
theorem lookup_nodes_append_of_none (nodes more : List (List String × Node))
    (path : List String) (h : lookup_nodes nodes path = none) :
    lookup_nodes (nodes ++ more) path = lookup_nodes more path := by
  induction nodes with
  | nil => simp
  | cons e rest ih =>
    obtain ⟨p, n⟩ := e
    by_cases hp : p = path
    · simp [lookup_nodes, hp] at h
    · simp only [List.cons_append, lookup_nodes, hp, if_false] at h ⊢
      exact ih h

/-- Removing the nodes at one path leaves every other path as it was and the
path itself empty. -/
theorem lookup_nodes_filter (nodes : List (List String × Node)) (path other : List String) :
    lookup_nodes (nodes.filter (fun e => !(e.1 == path))) other =
      if other = path then none else lookup_nodes nodes other := by
  induction nodes with
  | nil => simp [lookup_nodes]
  | cons e rest ih =>
    obtain ⟨p, n⟩ := e
    by_cases hp : p = path
    · have hf : ((p, n) :: rest).filter (fun e => !(e.1 == path)) =
          rest.filter (fun e => !(e.1 == path)) :=
        List.filter_cons_of_neg (by simp [hp])
      rw [hf, ih]
      by_cases ho : other = path
      · simp [ho]
      · have hne : ¬ p = other := fun e => ho (e ▸ hp)
        simp [ho, lookup_nodes, hne]
    · have hf : ((p, n) :: rest).filter (fun e => !(e.1 == path)) =
          (p, n) :: rest.filter (fun e => !(e.1 == path)) :=
        List.filter_cons_of_pos (by simp [hp])
      rw [hf]
      by_cases hpo : p = other
      · have ho : ¬ other = path := fun e => hp (hpo ▸ e)
        simp [lookup_nodes, hpo, ho]
      · simp only [lookup_nodes, hpo, if_false]
        exact ih

/-- Adding a node keeps every node that exists. -/
theorem lookup_add_keeps (fs : FileSystem) (path p : List String) (kind node : Node)
    (h : fs.lookup p = some node) : (fs.add path kind).lookup p = some node :=
  lookup_nodes_append_of_some _ _ _ _ h

/-- Adding a node at a path where nothing exists puts it there. -/
theorem lookup_add_new (fs : FileSystem) (path : List String) (kind : Node)
    (h : fs.lookup path = none) : (fs.add path kind).lookup path = some kind := by
  simp only [FileSystem.lookup, FileSystem.add]
  rw [lookup_nodes_append_of_none _ _ _ h]
  simp [lookup_nodes]

/-- Adding a node leaves every other path as it was. -/
theorem lookup_add_other (fs : FileSystem) (path p : List String) (kind : Node)
    (h : p ≠ path) : (fs.add path kind).lookup p = fs.lookup p := by
  cases hl : fs.lookup p with
  | some n => exact lookup_add_keeps fs path p kind n hl
  | none =>
    simp only [FileSystem.lookup, FileSystem.add]
    rw [lookup_nodes_append_of_none _ _ _ hl]
    have hne : ¬ path = p := fun e => h e.symm
    simp [lookup_nodes, hne]

/-- The loop `make_directories` keeps every node that exists. -/
theorem make_directories_keeps (paths : List (List String)) (fs : FileSystem)
    (p : List String) (node : Node) (h : fs.lookup p = some node) :
    (make_directories paths fs).1.lookup p = some node := by
  induction paths generalizing fs with
  | nil => exact h
  | cons q rest ih =>
    simp only [make_directories]
    split_ifs
    · exact ih fs h
    · exact h
    · exact ih _ (lookup_add_keeps fs q p Node.dir node h)

/-- The loop `make_directories` does not change what the system refuses. -/
theorem make_directories_refused (paths : List (List String)) (fs : FileSystem) :
    (make_directories paths fs).1.refused = fs.refused := by
  induction paths generalizing fs with
  | nil => rfl
  | cons q rest ih =>
    simp only [make_directories]
    split_ifs
    · exact ih fs
    · rfl
    · rw [ih]
      rfl

/-- The loop `make_directories` touches no path outside its list. -/
theorem make_directories_elsewhere (paths : List (List String)) (fs : FileSystem)
    (other : List String) (h : other ∉ paths) :
    (make_directories paths fs).1.lookup other = fs.lookup other := by
  induction paths generalizing fs with
  | nil => rfl
  | cons q rest ih =>
    have hq : other ≠ q := fun e => h (e ▸ List.mem_cons_self _ _)
    have hr : other ∉ rest := fun hm => h (List.mem_cons_of_mem _ hm)
    simp only [make_directories]
    split_ifs
    · exact ih fs hr
    · rfl
    · rw [ih _ hr]
      exact lookup_add_other fs q other Node.dir hq

/-- The loop `make_directories` makes every missing directory of its list
when the system refuses none of them. -/
theorem make_directories_made (paths : List (List String)) (fs : FileSystem)
    (hok : ∀ p ∈ paths, fs.lookup p = none → fs.refused.contains p = false)
    (p : List String) (hp : p ∈ paths) (hnone : fs.lookup p = none) :
    (make_directories paths fs).1.lookup p = some Node.dir := by
  induction paths generalizing fs with
  | nil => simp at hp
  | cons q rest ih =>
    simp only [make_directories]
    by_cases hq : (fs.lookup q).isSome = true
    · simp only [hq, if_true]
      have hpq : p ≠ q := by
        intro e
        rw [← e, hnone] at hq
        simp at hq
      have hpr : p ∈ rest := by
        rcases List.mem_cons.mp hp with h1 | h1
        · exact absurd h1 hpq
        · exact h1
      exact ih fs (fun p2 hp2 => hok p2 (List.mem_cons_of_mem _ hp2)) hpr hnone
    · have hqn : fs.lookup q = none := by
        cases hl : fs.lookup q with
        | none => rfl
        | some n => simp [hl] at hq
      have hnr : fs.refused.contains q = false := hok q (List.mem_cons_self _ _) hqn
      simp only [hq, hnr, Bool.false_eq_true, if_false]
      by_cases hpq : p = q
      · rw [hpq]
        exact make_directories_keeps rest _ q Node.dir (lookup_add_new fs q Node.dir hqn)
      · have hpr : p ∈ rest := by
          rcases List.mem_cons.mp hp with h1 | h1
          · exact absurd h1 hpq
          · exact h1
        apply ih (fs.add q Node.dir) _ hpr
        · rw [lookup_add_other fs q p Node.dir hpq]
          exact hnone
        · intro p2 hp2 hn2
          have hne2 : p2 ≠ q := by
            intro e
            rw [e, lookup_add_new fs q Node.dir hqn] at hn2
            simp at hn2
          rw [lookup_add_other fs q p2 Node.dir hne2] at hn2
          exact hok p2 (List.mem_cons_of_mem _ hp2) hn2

/-- Running the loop `make_directories` again changes nothing more. -/
theorem make_directories_again (paths : List (List String)) (fs : FileSystem) :
    make_directories paths (make_directories paths fs).1 = make_directories paths fs := by
  induction paths generalizing fs with
  | nil => rfl
  | cons q rest ih =>
    by_cases hq : (fs.lookup q).isSome = true
    · have h1 : make_directories (q :: rest) fs = make_directories rest fs := by
        simp [make_directories, hq]
      obtain ⟨n, hn⟩ := Option.isSome_iff_exists.mp hq
      have hq2 : ((make_directories rest fs).1.lookup q).isSome = true := by
        rw [make_directories_keeps rest fs q n hn]
        rfl
      rw [h1]
      simp only [make_directories, hq2, if_true]
      exact ih fs
    · by_cases hr : fs.refused.contains q = true
      · have h1 : make_directories (q :: rest) fs = (fs, some "Permission denied") := by
          simp only [make_directories, hq, hr, if_true, if_false, Bool.false_eq_true]
        rw [h1]
        exact h1
      · have h1 : make_directories (q :: rest) fs =
            make_directories rest (fs.add q Node.dir) := by
          simp only [make_directories, hq, hr, if_false, Bool.false_eq_true]
        have hqn : fs.lookup q = none := by
          cases hl : fs.lookup q with
          | none => rfl
          | some n => simp [hl] at hq
        have hq2 : ((make_directories rest (fs.add q Node.dir)).1.lookup q).isSome = true := by
          rw [make_directories_keeps rest _ q Node.dir (lookup_add_new fs q Node.dir hqn)]
          rfl
        rw [h1]
        simp only [make_directories, hq2, if_true]
        exact ih _

/-- The call `g_file_make_directory_with_parents` keeps every node. -/
theorem make_directory_keeps (fs : FileSystem) (path p : List String) (node : Node)
    (h : fs.lookup p = some node) :
    (g_file_make_directory_with_parents fs path).1.lookup p = some node := by
  unfold g_file_make_directory_with_parents
  split_ifs
  · exact h
  · exact h
  · exact make_directories_keeps _ fs p node h

/-- The call `g_file_make_directory_with_parents` does not change what the
system refuses. -/
theorem make_directory_refused (fs : FileSystem) (path : List String) :
    (g_file_make_directory_with_parents fs path).1.refused = fs.refused := by
  unfold g_file_make_directory_with_parents
  split_ifs
  · rfl
  · rfl
  · exact make_directories_refused _ fs

/-- The call `g_file_make_directory_with_parents` touches no path that is
not a prefix of its argument. -/
theorem make_directory_elsewhere (fs : FileSystem) (path other : List String)
    (h : other ∉ path.inits) :
    (g_file_make_directory_with_parents fs path).1.lookup other = fs.lookup other := by
  unfold g_file_make_directory_with_parents
  split_ifs
  · rfl
  · rfl
  · exact make_directories_elsewhere _ fs other h

/-- After the call `g_file_make_directory_with_parents` the path is a
directory when every component of it is a directory or is missing and the
system refuses none of the missing ones. -/
theorem make_directory_succeeds (fs : FileSystem) (path : List String)
    (hdir : ∀ p ∈ path.inits, fs.lookup p = none ∨ fs.lookup p = some Node.dir)
    (hok : ∀ p ∈ path.inits, fs.lookup p = none → fs.refused.contains p = false) :
    (g_file_make_directory_with_parents fs path).1.lookup path = some Node.dir := by
  have hmem : path ∈ path.inits := (List.mem_inits _ _).mpr (List.prefix_refl _)
  rcases hdir path hmem with hn | hd
  · have hany : path.inits.any
        (fun p => fs.lookup p == some Node.file || fs.lookup p == some Node.other) = false := by
      apply Bool.eq_false_iff.mpr
      intro ha
      obtain ⟨p, hp, hpf⟩ := List.any_eq_true.mp ha
      rcases hdir p hp with h1 | h1 <;> simp [h1] at hpf
    simp only [g_file_make_directory_with_parents, hn, hany, Option.isSome_none,
      Bool.false_eq_true, if_false]
    exact make_directories_made _ fs hok path hmem hn
  · exact make_directory_keeps fs path path Node.dir hd

/-- A second call of `g_file_make_directory_with_parents` changes nothing
more. -/
theorem make_directory_again (fs : FileSystem) (path : List String) :
    (g_file_make_directory_with_parents
      (g_file_make_directory_with_parents fs path).1 path).1 =
      (g_file_make_directory_with_parents fs path).1 := by
  by_cases h1 : (fs.lookup path).isSome = true
  · have e : g_file_make_directory_with_parents fs path = (fs, some "File exists") := by
      simp only [g_file_make_directory_with_parents, h1, if_true]
    rw [e, e]
  · by_cases h2 : path.inits.any
        (fun p => fs.lookup p == some Node.file || fs.lookup p == some Node.other) = true
    · have e : g_file_make_directory_with_parents fs path = (fs, some "Not a directory") := by
        simp only [g_file_make_directory_with_parents, h1, h2, if_true, if_false,
          Bool.false_eq_true]
      rw [e, e]
    · have e : g_file_make_directory_with_parents fs path = make_directories path.inits fs := by
        simp only [g_file_make_directory_with_parents, h1, h2, if_false, Bool.false_eq_true]
      rw [e]
      unfold g_file_make_directory_with_parents
      split_ifs
      · rfl
      · rfl
      · rw [make_directories_again]

/-- The call `g_file_make_directory_with_parents` changes nothing when its
path exists. -/
theorem make_directory_exists (fs : FileSystem) (path : List String) (node : Node)
    (h : fs.lookup path = some node) :
    (g_file_make_directory_with_parents fs path).1 = fs := by
  simp [g_file_make_directory_with_parents, h]

/-- The call `g_file_create` keeps every node. -/
theorem create_keeps (fs : FileSystem) (path p : List String) (node : Node)
    (h : fs.lookup p = some node) : (g_file_create fs path).1.lookup p = some node := by
  unfold g_file_create
  split_ifs
  · exact h
  · exact h
  · exact lookup_add_keeps _ _ _ _ _ h
  · exact h
  · exact h

/-- The call `g_file_create` either changes nothing or adds a regular file
at a missing path in a directory. -/
theorem create_cases (fs : FileSystem) (path : List String) :
    (g_file_create fs path).1 = fs ∨
    ((g_file_create fs path).1 = fs.add path Node.file ∧
      fs.lookup path.dropLast = some Node.dir) := by
  unfold g_file_create
  split_ifs with h1 h2 h3 h4
  · exact Or.inl rfl
  · exact Or.inl rfl
  · exact Or.inr ⟨rfl, h2⟩
  · exact Or.inl rfl
  · exact Or.inl rfl

/-- The call `g_file_create` makes a regular file at a missing path in a
directory when the system does not refuse. -/
theorem create_succeeds (fs : FileSystem) (path : List String)
    (hnone : fs.lookup path = none) (hparent : fs.lookup path.dropLast = some Node.dir)
    (hok : fs.refused.contains path = false) :
    (g_file_create fs path).1.lookup path = some Node.file := by
  simp only [g_file_create, hnone, hparent, hok, Option.isSome_none, Bool.false_eq_true,
    if_false, if_true]
  exact lookup_add_new fs path Node.file hnone

/-- After `g_file_create` a second call fails and changes nothing. -/
theorem create_after (fs : FileSystem) (path : List String) :
    ∃ message, g_file_create (g_file_create fs path).1 path =
      ((g_file_create fs path).1, some message) := by
  have hfail : ∀ m : String, g_file_create fs path = (fs, some m) →
      ∃ message, g_file_create (g_file_create fs path).1 path =
        ((g_file_create fs path).1, some message) := by
    intro m e
    exact ⟨m, by rw [e]; exact e⟩
  by_cases h1 : (fs.lookup path).isSome = true
  · exact hfail "File exists" (by simp only [g_file_create, h1, if_true])
  · have hnone : fs.lookup path = none := by
      cases hl : fs.lookup path with
      | none => rfl
      | some n => simp [hl] at h1
    by_cases h2 : fs.lookup path.dropLast = some Node.dir
    · by_cases h3 : fs.refused.contains path = true
      · exact hfail "Permission denied"
          (by simp only [g_file_create, h1, h2, h3, if_true, if_false, Bool.false_eq_true])
      · have e : g_file_create fs path = (fs.add path Node.file, none) := by
          simp only [g_file_create, h1, h2, h3, if_true, if_false, Bool.false_eq_true]
        have hnew : ((fs.add path Node.file).lookup path).isSome = true := by
          rw [lookup_add_new fs path Node.file hnone]
          rfl
        refine ⟨"File exists", ?_⟩
        rw [e]
        simp only [g_file_create, hnew, if_true]
    · by_cases h4 : fs.lookup path.dropLast = none
      · exact hfail "No such file or directory"
          (by simp [g_file_create, hnone, h4])
      · exact hfail "Not a directory"
          (by simp only [g_file_create, h1, h2, h4, if_false, Bool.false_eq_true])

/-- The file system `setting_shared_folder_active_cb` leaves: with the
switch on, the directory is made and then the marker file is created in
what results; with the switch off, the marker file is deleted. -/
theorem shared_folder_cb_fs (config_dir : List String) (fs : FileSystem)
    (self : CcWaydroidPanel) :
    (setting_shared_folder_active_cb config_dir fs self).1 =
      (if self.setting_shared_folder_switch.active then
        g_file_create (g_file_make_directory_with_parents fs (config_dir ++ ["Droidian"])).1
          (config_dir ++ ["Droidian"] ++ ["waydroid_shared_folder"])
      else g_file_delete fs (config_dir ++ ["Droidian"] ++ ["waydroid_shared_folder"])).1 := by
  unfold setting_shared_folder_active_cb
  dsimp only
  split <;> simp

/-- The trace `setting_shared_folder_active_cb` leaves: a warning when the
last file operation failed. -/
theorem shared_folder_cb_issued (config_dir : List String) (fs : FileSystem)
    (self : CcWaydroidPanel) :
    (setting_shared_folder_active_cb config_dir fs self).2.issued =
      match (if self.setting_shared_folder_switch.active then
        g_file_create (g_file_make_directory_with_parents fs (config_dir ++ ["Droidian"])).1
          (config_dir ++ ["Droidian"] ++ ["waydroid_shared_folder"])
      else g_file_delete fs (config_dir ++ ["Droidian"] ++ ["waydroid_shared_folder"])).2 with
      | some message => self.issued ++ [Effect.warning message]
      | none => self.issued := by
  unfold setting_shared_folder_active_cb
  dsimp only
  split <;> simp_all [CcWaydroidPanel.issue]

/-- The file system `setting_shared_folder_active_cb` leaves with the switch
on. -/
theorem shared_folder_on_eq (config_dir : List String) (fs : FileSystem)
    (self : CcWaydroidPanel) :
    (setting_shared_folder_active_cb config_dir fs (shared_folder_switch_in_state self true)).1 =
      (g_file_create (g_file_make_directory_with_parents fs (config_dir ++ ["Droidian"])).1
        (config_dir ++ ["Droidian"] ++ ["waydroid_shared_folder"])).1 := by
  rw [shared_folder_cb_fs]
  exact congrArg Prod.fst (if_pos rfl)

/-- The file system `setting_shared_folder_active_cb` leaves with the switch
off. -/
theorem shared_folder_off_eq (config_dir : List String) (fs : FileSystem)
    (self : CcWaydroidPanel) :
    (setting_shared_folder_active_cb config_dir fs (shared_folder_switch_in_state self false)).1 =
      (g_file_delete fs (config_dir ++ ["Droidian"] ++ ["waydroid_shared_folder"])).1 := by
  rw [shared_folder_cb_fs]
  exact congrArg Prod.fst (if_neg (by simp [shared_folder_switch_in_state]))

/-- The call `g_file_delete` leaves no regular file at its path unless the
system refuses, and every other path as it was. -/
theorem g_file_delete_spec (fs : FileSystem) (other path : List String) (hne : other ≠ path) :
    (fs.refused.contains path = false →
      (g_file_delete fs path).1.lookup path ≠ some Node.file) ∧
    (g_file_delete fs path).1.lookup other = fs.lookup other := by
  have hrm : ∀ q : List String, (fs.remove path).lookup q =
      if q = path then none else fs.lookup q := fun q => lookup_nodes_filter fs.nodes path q
  cases hl : fs.lookup path with
  | none =>
    constructor
    · intro _
      simp [g_file_delete, hl]
    · simp [g_file_delete, hl]
  | some n =>
    constructor
    · intro hok
      simp only [g_file_delete, hl, hok, Bool.false_eq_true, if_false]
      split_ifs with hd
      · rw [hl, hd.1]
        simp
      · rw [hrm]
        simp
    · simp only [g_file_delete, hl]
      split_ifs
      · rfl
      · rfl
      · rw [hrm]
        simp [hne]

/-- A second application of the handler with the shared folder switch on
leaves the file system as the first left it and logs one warning. -/
theorem shared_folder_on_twice (config_dir : List String) (fs : FileSystem)
    (self self2 : CcWaydroidPanel) :
    (setting_shared_folder_active_cb config_dir
        (setting_shared_folder_active_cb config_dir fs
          (shared_folder_switch_in_state self true)).1
        (shared_folder_switch_in_state self2 true)).1 =
      (setting_shared_folder_active_cb config_dir fs
          (shared_folder_switch_in_state self true)).1 ∧
    ∃ message,
      (setting_shared_folder_active_cb config_dir
        (setting_shared_folder_active_cb config_dir fs
          (shared_folder_switch_in_state self true)).1
        (shared_folder_switch_in_state self2 true)).2.issued =
      self2.issued ++ [Effect.warning message] := by
  have hparent : (config_dir ++ ["Droidian"] ++ ["waydroid_shared_folder"]).dropLast
      = config_dir ++ ["Droidian"] := List.dropLast_concat
  have hfs1 := shared_folder_on_eq config_dir fs self
  have hmk : (g_file_make_directory_with_parents
      (setting_shared_folder_active_cb config_dir fs
        (shared_folder_switch_in_state self true)).1 (config_dir ++ ["Droidian"])).1 =
      (setting_shared_folder_active_cb config_dir fs
        (shared_folder_switch_in_state self true)).1 := by
    rw [hfs1]
    rcases create_cases (g_file_make_directory_with_parents fs (config_dir ++ ["Droidian"])).1
      (config_dir ++ ["Droidian"] ++ ["waydroid_shared_folder"]) with hc | ⟨hc, hd⟩
    · rw [hc]
      exact make_directory_again fs _
    · rw [hparent] at hd
      exact make_directory_exists _ _ Node.dir (create_keeps _ _ _ _ hd)
  obtain ⟨message, hcreate⟩ := create_after
    (g_file_make_directory_with_parents fs (config_dir ++ ["Droidian"])).1
    (config_dir ++ ["Droidian"] ++ ["waydroid_shared_folder"])
  rw [← hfs1] at hcreate
  have hsecond : (if (shared_folder_switch_in_state self2 true).setting_shared_folder_switch.active
      then
        g_file_create (g_file_make_directory_with_parents
          (setting_shared_folder_active_cb config_dir fs
            (shared_folder_switch_in_state self true)).1 (config_dir ++ ["Droidian"])).1
          (config_dir ++ ["Droidian"] ++ ["waydroid_shared_folder"])
      else g_file_delete (setting_shared_folder_active_cb config_dir fs
            (shared_folder_switch_in_state self true)).1
          (config_dir ++ ["Droidian"] ++ ["waydroid_shared_folder"])) =
      ((setting_shared_folder_active_cb config_dir fs
            (shared_folder_switch_in_state self true)).1, some message) := by
    rw [if_pos (show (shared_folder_switch_in_state self2
      true).setting_shared_folder_switch.active = true from rfl), hmk, hcreate]
  constructor
  · rw [shared_folder_cb_fs, hsecond]
  · refine ⟨message, ?_⟩
    rw [shared_folder_cb_issued, hsecond]
    rfl

/-- C13 (as stated, refuted).  When `Droidian` in the configuration directory
is a regular file, turning the shared folder switch on ends with no
directory `Droidian` and no marker file: the regular file is still there and
nothing exists at the marker path. -/
theorem shared_folder_on_without_directory :
    (setting_shared_folder_active_cb sample_config_dir sample_fs_regular_file
        sample_panel_shared_on).1.lookup (sample_config_dir ++ ["Droidian"])
      = some Node.file ∧
    (setting_shared_folder_active_cb sample_config_dir sample_fs_regular_file
        sample_panel_shared_on).1.lookup
          (sample_config_dir ++ ["Droidian"] ++ ["waydroid_shared_folder"])
      = none ∧
    (setting_shared_folder_active_cb sample_config_dir sample_fs_regular_file
        sample_panel_shared_on).2.issued
      = [Effect.warning "Not a directory"] := by
  decide

/-- When the system refuses to make `Droidian` in the configuration
directory, turning the shared folder switch on ends with neither the
directory nor the marker file; when it refuses to remove the marker file,
turning the switch off leaves the marker file.  Each time one warning is
logged. -/
theorem shared_folder_refused :
    ((setting_shared_folder_active_cb sample_config_dir sample_fs_read_only
        sample_panel_shared_on).1.lookup (sample_config_dir ++ ["Droidian"])
      = none ∧
    (setting_shared_folder_active_cb sample_config_dir sample_fs_read_only
        sample_panel_shared_on).1.lookup
          (sample_config_dir ++ ["Droidian"] ++ ["waydroid_shared_folder"])
      = none ∧
    (setting_shared_folder_active_cb sample_config_dir sample_fs_read_only
        sample_panel_shared_on).2.issued.length = 1) ∧
    ((setting_shared_folder_active_cb sample_config_dir sample_fs_marker_kept
        sample_panel).1.lookup
          (sample_config_dir ++ ["Droidian"] ++ ["waydroid_shared_folder"])
      = some Node.file ∧
    (setting_shared_folder_active_cb sample_config_dir sample_fs_marker_kept
        sample_panel).2.issued.length = 1) := by
  decide

/-- C13 (amended).  Turning the shared folder switch on ends with the
directory `Droidian` and the marker file both present when every component
of the path of the directory is a directory or is missing, the system
refuses to make none of the missing ones, and the marker is a regular file
or is missing and the system does not refuse to create it.  In every file
system state a second application leaves the file system as the first left
it and only logs a warning.  Turning the switch off leaves the directory
entry as it was, and no regular file at the marker path when the system
does not refuse to remove what is there. -/
theorem shared_folder_toggle (config_dir : List String) (fs : FileSystem)
    (self self2 : CcWaydroidPanel) :
    ((∀ p ∈ (config_dir ++ ["Droidian"]).inits,
        fs.lookup p = none ∨ fs.lookup p = some Node.dir) →
      (∀ p ∈ (config_dir ++ ["Droidian"]).inits,
        fs.lookup p = none → fs.refused.contains p = false) →
      (fs.lookup (config_dir ++ ["Droidian"] ++ ["waydroid_shared_folder"]) = some Node.file ∨
        (fs.lookup (config_dir ++ ["Droidian"] ++ ["waydroid_shared_folder"]) = none ∧
          fs.refused.contains (config_dir ++ ["Droidian"] ++ ["waydroid_shared_folder"])
            = false)) →
      (setting_shared_folder_active_cb config_dir fs
          (shared_folder_switch_in_state self true)).1.lookup (config_dir ++ ["Droidian"])
        = some Node.dir ∧
      (setting_shared_folder_active_cb config_dir fs
          (shared_folder_switch_in_state self true)).1.lookup
            (config_dir ++ ["Droidian"] ++ ["waydroid_shared_folder"])
        = some Node.file) ∧
    ((setting_shared_folder_active_cb config_dir
        (setting_shared_folder_active_cb config_dir fs
          (shared_folder_switch_in_state self true)).1
        (shared_folder_switch_in_state self2 true)).1 =
      (setting_shared_folder_active_cb config_dir fs
          (shared_folder_switch_in_state self true)).1 ∧
      ∃ message,
        (setting_shared_folder_active_cb config_dir
          (setting_shared_folder_active_cb config_dir fs
            (shared_folder_switch_in_state self true)).1
          (shared_folder_switch_in_state self2 true)).2.issued =
        self2.issued ++ [Effect.warning message]) ∧
    ((fs.refused.contains (config_dir ++ ["Droidian"] ++ ["waydroid_shared_folder"]) = false →
        (setting_shared_folder_active_cb config_dir fs
          (shared_folder_switch_in_state self false)).1.lookup
            (config_dir ++ ["Droidian"] ++ ["waydroid_shared_folder"])
        ≠ some Node.file) ∧
      (setting_shared_folder_active_cb config_dir fs
          (shared_folder_switch_in_state self false)).1.lookup (config_dir ++ ["Droidian"])
        = fs.lookup (config_dir ++ ["Droidian"])) := by
  have hne : config_dir ++ ["Droidian"] ≠
      config_dir ++ ["Droidian"] ++ ["waydroid_shared_folder"] := by
    intro h
    have hl := congrArg List.length h
    simp at hl
  have hnotin : (config_dir ++ ["Droidian"] ++ ["waydroid_shared_folder"]) ∉
      (config_dir ++ ["Droidian"]).inits := by
    intro hm
    have hp := (List.mem_inits _ _).mp hm
    have hl := hp.length_le
    simp at hl
  have hparent : (config_dir ++ ["Droidian"] ++ ["waydroid_shared_folder"]).dropLast
      = config_dir ++ ["Droidian"] := List.dropLast_concat
  refine ⟨?_, shared_folder_on_twice config_dir fs self self2, ?_⟩
  · intro hdir hok hmarker
    rw [shared_folder_on_eq]
    have h1 := make_directory_succeeds fs (config_dir ++ ["Droidian"]) hdir hok
    have h2 := make_directory_elsewhere fs (config_dir ++ ["Droidian"])
      (config_dir ++ ["Droidian"] ++ ["waydroid_shared_folder"]) hnotin
    refine ⟨create_keeps _ _ _ _ h1, ?_⟩
    rcases hmarker with hfile | ⟨hnone, hallowed⟩
    · rw [hfile] at h2
      exact create_keeps _ _ _ _ h2
    · rw [hnone] at h2
      apply create_succeeds _ _ h2
      · rw [hparent]
        exact h1
      · rw [make_directory_refused]
        exact hallowed
  · have hoff := shared_folder_off_eq config_dir fs self
    rw [hoff]
    exact g_file_delete_spec fs _ _ hne

/-- Witness for C13 (amended): in the sample file system, where the
configuration directory exists and is empty and nothing is refused, turning
the switch on yields the directory and the marker file. -/
theorem shared_folder_toggle_witness :
    (∀ p ∈ (sample_config_dir ++ ["Droidian"]).inits,
      sample_fs.lookup p = none ∨ sample_fs.lookup p = some Node.dir) ∧
    (∀ p ∈ (sample_config_dir ++ ["Droidian"]).inits,
      sample_fs.lookup p = none → sample_fs.refused.contains p = false) ∧
    (sample_fs.lookup (sample_config_dir ++ ["Droidian"] ++ ["waydroid_shared_folder"])
        = some Node.file ∨
      (sample_fs.lookup (sample_config_dir ++ ["Droidian"] ++ ["waydroid_shared_folder"])
          = none ∧
        sample_fs.refused.contains
          (sample_config_dir ++ ["Droidian"] ++ ["waydroid_shared_folder"]) = false)) ∧
    (setting_shared_folder_active_cb sample_config_dir sample_fs
        (shared_folder_switch_in_state sample_panel true)).1.lookup
          (sample_config_dir ++ ["Droidian"])
      = some Node.dir ∧
    (setting_shared_folder_active_cb sample_config_dir sample_fs
        (shared_folder_switch_in_state sample_panel true)).1.lookup
          (sample_config_dir ++ ["Droidian"] ++ ["waydroid_shared_folder"])
      = some Node.file :=
  ⟨by decide, by decide, by decide,
   (shared_folder_toggle sample_config_dir sample_fs sample_panel sample_panel).1
      (by decide) (by decide) (by decide)⟩

/-! ## Completion of a Start or Stop request -/

/-- C14.  With the proxy set, `waydroid_state_changed_cb` issues the
`GetSession` query exactly once, whether the request failed or not; the
lifecycle toggle is the negation of what it was when the request failed and
is as it was when the request succeeded; its sensitivity and the block count
of its handler are as before. -/
theorem state_changed_cb_query_and_toggle (env : Env) (res : DBusReply)
    (self : CcWaydroidPanel) :
    (waydroid_state_changed_cb env res { self with waydroid_proxy := true }).issued.count
        (Effect.dbus_call "GetSession" DBusParams.null) =
      self.issued.count (Effect.dbus_call "GetSession" DBusParams.null) + 1 ∧
    (waydroid_state_changed_cb env res
        { self with waydroid_proxy := true }).enable_waydroid_switch.active =
      (match res with
       | Except.error _ => !self.enable_waydroid_switch.active
       | Except.ok _ => self.enable_waydroid_switch.active) ∧
    (waydroid_state_changed_cb env res
        { self with waydroid_proxy := true }).enable_waydroid_switch.sensitive =
      self.enable_waydroid_switch.sensitive ∧
    (waydroid_state_changed_cb env res
        { self with waydroid_proxy := true }).enable_waydroid_switch.blocked =
      self.enable_waydroid_switch.blocked := by
  cases res with
  | ok payload =>
    simp [waydroid_state_changed_cb, check_waydroid_running, g_dbus_proxy_call,
      CcWaydroidPanel.issue, List.count_append]
  | error message =>
    cases ha : self.enable_waydroid_switch.active <;>
      cases hb : self.enable_waydroid_switch.blocked <;>
      simp [waydroid_state_changed_cb, check_waydroid_running, g_dbus_proxy_call,
        CcWaydroidPanel.issue, List.count_append, enable_waydroid_switch_set_active,
        gtk_switch_set_active, enable_waydroid_active_cb, ha, hb]

/-! ## The store bootstrap row -/

/-- C15.  When the download fails, `fdroid_downloaded_cb` puts the error
message in the title of the install row, stops the spinner, makes the
install control sensitive and issues nothing, so no helper is spawned and no
child watch is registered.  When the download succeeds and the helper cannot
be spawned, the same holds except that the spawn was attempted.  Only when
both succeed is the child watch registered, and the row is otherwise as it
was. -/
theorem fdroid_install_error_paths (self : CcFdroidRow) (message : String) (pid : Nat)
    (spawn : Except String Nat) :
    fdroid_downloaded_cb (Except.error message) spawn self =
      { self with
        install_row_title := message
        spinner := false
        install_application_button_sensitive := true } ∧
    fdroid_downloaded_cb (Except.ok ()) (Except.error message) self =
      { self with
        install_row_title := message
        spinner := false
        install_application_button_sensitive := true
        issued := self.issued ++
          [Effect.spawn_async ["/usr/bin/waydroid2", "app", "install", "/tmp/fdroid.apk"]] } ∧
    fdroid_downloaded_cb (Except.ok ()) (Except.ok pid) self =
      { self with
        issued := self.issued ++
          [Effect.spawn_async ["/usr/bin/waydroid2", "app", "install", "/tmp/fdroid.apk"],
           Effect.child_watch_add pid] } ∧
    (fdroid_downloaded_cb (Except.error message) spawn self).issued = self.issued ∧
    (fdroid_downloaded_cb (Except.ok ()) (Except.error message) self).issued =
      self.issued ++
        [Effect.spawn_async ["/usr/bin/waydroid2", "app", "install", "/tmp/fdroid.apk"]] := by
  refine ⟨?_, ?_, ?_, ?_, ?_⟩
  · simp [fdroid_downloaded_cb, show_fdroid_error]
  · simp [fdroid_downloaded_cb, install_fdroid, show_fdroid_error]
  · simp [fdroid_downloaded_cb, install_fdroid]
  · simp [fdroid_downloaded_cb, show_fdroid_error]
  · simp [fdroid_downloaded_cb, install_fdroid, show_fdroid_error]

/-! ## Removal on confirmation -/

/-- C18.  The dialog `remove_application_clicked_cb` presents offers the
responses "cancel" and "remove" and answers "cancel" when it is closed.  For
every response other than "remove" the handler leaves the row exactly as it
was, so no command is run and the expanded, sensitive and opacity states are
unchanged.  For "remove" it runs exactly one command and leaves the row
collapsed, insensitive and at opacity 0.5, whatever becomes of the command. -/
theorem remove_only_on_confirmation (response : String) (self : CcAppRow) :
    (remove_application_clicked_cb self).responses.map Prod.fst = ["cancel", "remove"] ∧
    (remove_application_clicked_cb self).close_response = "cancel" ∧
    remove_application_dialog_cb "cancel" self = self ∧
    (if response = "remove" then
      (∃ command,
        (remove_application_dialog_cb response self).issued =
          self.issued ++ [Effect.spawn_command_line command]) ∧
      (remove_application_dialog_cb response self).expanded = false ∧
      (remove_application_dialog_cb response self).sensitive = false ∧
      (remove_application_dialog_cb response self).opacity = 50
    else remove_application_dialog_cb response self = self) := by
  refine ⟨rfl, rfl, ?_, ?_⟩
  · simp [remove_application_dialog_cb, g_strcmp0_eq]
  · by_cases h : response = "remove"
    · simp [remove_application_dialog_cb, g_strcmp0_eq, h]
    · simp [remove_application_dialog_cb, g_strcmp0_eq, h]

/-! ## Balanced blocking -/

/-- C19.  The callbacks that block a change handler leave its block count as
they found it: `waydroid_get_session_cb` for the lifecycle toggle, whatever
the reply, `get_prop_watch` for the uevent and suspend toggles, and
`cc_app_row_new` for the show-in-launcher toggle of the row it builds.  So
after `waydroid_get_session_cb` a change of the lifecycle toggle runs its
handler exactly when the handler was not blocked before the callback. -/
theorem handler_blocking_balanced (env : Env) (res : DBusReply) (prop : String)
    (line : Option String) (self : CcWaydroidPanel) (save_ok : String → Bool)
    (template : CcAppRow) (files : DesktopFiles) (app_info : GDesktopAppInfo) (v : Bool) :
    (waydroid_get_session_cb env res self).enable_waydroid_switch.blocked =
      self.enable_waydroid_switch.blocked ∧
    (get_prop_watch env prop line self).setting_uevent_switch.blocked =
      self.setting_uevent_switch.blocked ∧
    (get_prop_watch env prop line self).setting_suspend_switch.blocked =
      self.setting_suspend_switch.blocked ∧
    (∀ row, (cc_app_row_new save_ok template files app_info).2 = some row →
      row.show_in_launcher_switch.blocked = template.show_in_launcher_switch.blocked) ∧
    (gtk_switch_set_active (waydroid_get_session_cb env res self).enable_waydroid_switch v).2 =
      (!((waydroid_get_session_cb env res self).enable_waydroid_switch.active == v) &&
        self.enable_waydroid_switch.blocked == 0) := by
  have hb : ∀ (a s : Bool) (n : Nat) (w : Bool),
      (gtk_switch_set_active { active := a, sensitive := s, blocked := n + 1 } w).2 = false :=
    fun a s n w => gtk_switch_set_active_blocked _ _ (by simp)
  have hsession : (waydroid_get_session_cb env res self).enable_waydroid_switch.blocked =
      self.enable_waydroid_switch.blocked := by
    simp only [waydroid_get_session_cb, Bool.false_and, Bool.false_eq_true, if_false,
      enable_waydroid_switch_set_active, GtkSwitch.block, hb, get_android_prop,
      CcWaydroidPanel.issue, gtk_switch_set_active_rest, GtkSwitch.unblock]
    split_ifs <;> simp
  have hprop := get_prop_watch_eq env prop line self
  refine ⟨hsession, ?_, ?_, ?_, ?_⟩
  · rw [hprop]
    split_ifs <;> rfl
  · rw [hprop]
    split_ifs <;> rfl
  · intro row hrow
    obtain ⟨filename, desktop_file, name, icon_name, hfile, hload, hname, hicon⟩ :=
      cc_app_row_new_some save_ok template files app_info row hrow
    rw [cc_app_row_new_eq save_ok template files app_info filename desktop_file name icon_name
      hfile hload hname hicon] at hrow
    rw [← Option.some.inj hrow]
  · by_cases ha : (waydroid_get_session_cb env res self).enable_waydroid_switch.active = v
    · simp [gtk_switch_set_active, ha]
    · simp [gtk_switch_set_active, ha, hsession]

/-! ## The display density -/

/-- C20 (code defect).  When `GRID_UNIT_PX` is not set and the density helper
cannot be run at all, `get_lcd_density` returns `NULL`, and the session map
of `get_waydroid_session` holds `NULL` under "lcd_density".  In the other
cases the result is a string: the value of `GRID_UNIT_PX` when set, the
output of the helper when it exits with status 0, the empty string when it
exits with another status. -/
theorem get_lcd_density_null (env : Env) (value out : String) (status : Int) :
    get_lcd_density { env with GRID_UNIT_PX := none, getprop := none } = none ∧
    ("lcd_density", none) ∈
      get_waydroid_session { env with GRID_UNIT_PX := none, getprop := none } ∧
    get_lcd_density { env with GRID_UNIT_PX := some value } = some value ∧
    get_lcd_density { env with GRID_UNIT_PX := none, getprop := some (out, 0) } = some out ∧
    get_lcd_density { env with GRID_UNIT_PX := none, getprop := some (out, status) } =
      (if status = 0 then some out else some "") := by
  refine ⟨?_, ?_, ?_, ?_, ?_⟩
  · simp [get_lcd_density]
  · simp [get_waydroid_session, get_lcd_density]
  · simp [get_lcd_density]
  · simp [get_lcd_density]
  · simp [get_lcd_density]

/-! ## Descriptors with equal names -/

/-- C16 (as stated, refuted).  Two applications named "Notes" are enumerated,
`org.example.one` before `org.example.two`; in the list handed to row
construction `org.example.two` comes first. -/
theorem equal_names_not_in_enumeration_order :
    ((sample_env_same_name.search.flatten.filterMap
        sample_env_same_name.g_desktop_app_info_new).filter
          (exec_contains "waydroid app launch ")).map (fun d => (d.Name, d.Exec)) =
      [(some "Notes", some "waydroid app launch org.example.one"),
       (some "Notes", some "waydroid app launch org.example.two")] ∧
    (check_available_apps_scan sample_env_same_name).map
        (fun r => r.1.map (fun d => (d.Name, d.Exec))) =
      some [(some "Notes", some "waydroid app launch org.example.two"),
            (some "Notes", some "waydroid app launch org.example.one")] := by
  decide

/-- C16 (amended).  When every enumerated descriptor with a launch command
has a name, the loops of `check_available_apps` return, and in the list
handed to row construction the collected descriptors of any one display
name appear in the reverse of their enumeration order: of two with equal
name, the one enumerated later comes earlier. -/
theorem equal_names_in_reverse_enumeration_order (env : Env) (name : String)
    (hnamed : ∀ d ∈ (env.search.flatten.filterMap env.g_desktop_app_info_new).filter
      (exec_contains "waydroid app launch "), d.Name ≠ none) :
    (check_available_apps_scan env).map
        (fun r => r.1.filter (fun d => d.Name == some name)) =
      some ((((env.search.flatten.filterMap env.g_desktop_app_info_new).filter
          (exec_contains "waydroid app launch ")).filter
            (fun d => d.Name == some name)).reverse) := by
  obtain ⟨to_sort, hscan, _, _, hfilt⟩ := check_available_apps_scan_named env hnamed
  rw [hscan, Option.map_some', hfilt name]

/-- Witness for C16 (amended): the two applications named "Notes". -/
theorem equal_names_in_reverse_enumeration_order_witness :
    (∀ d ∈ (sample_env_same_name.search.flatten.filterMap
        sample_env_same_name.g_desktop_app_info_new).filter
          (exec_contains "waydroid app launch "), d.Name ≠ none) ∧
    (check_available_apps_scan sample_env_same_name).map
        (fun r => r.1.filter (fun d => d.Name == some "Notes")) =
      some ((((sample_env_same_name.search.flatten.filterMap
          sample_env_same_name.g_desktop_app_info_new).filter
            (exec_contains "waydroid app launch ")).filter
              (fun d => d.Name == some "Notes")).reverse) :=
  ⟨by decide, equal_names_in_reverse_enumeration_order sample_env_same_name "Notes"
    (by decide)⟩

/-! ## The configuration screen -/

/-- The loop of `handle_waydroid_package` changes only the name of the
install button. -/
theorem handle_waydroid_package_loop_frame (packages : List PkPackage) (installed : Bool)
    (self : CcWaydroidPanel) :
    (handle_waydroid_package_loop packages (installed, self)).2.stack = self.stack ∧
    (handle_waydroid_package_loop packages (installed, self)).2.enable_waydroid_switch =
      self.enable_waydroid_switch := by
  induction packages generalizing installed self with
  | nil => simp [handle_waydroid_package_loop]
  | cons p rest ih =>
    by_cases hp : pk_installed p = true
    · simp only [handle_waydroid_package_loop, hp, if_true]
      exact ih true self
    · simp only [handle_waydroid_package_loop, hp, if_false]
      exact ih installed _

/-- One event leaves the visible child of the stack as it was or makes it
"configure", and leaves the lifecycle toggle as sensitive as it was or makes
it sensitive. -/
theorem panel_step_frame (env : Env) (config_dir : List String)
    (st : FileSystem × CcWaydroidPanel) (ev : PanelEvent) :
    ((panel_step env config_dir st ev).2.stack = st.2.stack ∨
      (panel_step env config_dir st ev).2.stack = "configure") ∧
    ((panel_step env config_dir st ev).2.enable_waydroid_switch.sensitive =
        st.2.enable_waydroid_switch.sensitive ∨
      (panel_step env config_dir st ev).2.enable_waydroid_switch.sensitive = true) := by
  obtain ⟨fs, self⟩ := st
  cases ev with
  | resolved res =>
    cases res with
    | error message => simp [panel_step, waydroid_resolved_cb, CcWaydroidPanel.issue]
    | error_code => simp [panel_step, waydroid_resolved_cb, CcWaydroidPanel.issue]
    | packages packages =>
      have h := handle_waydroid_package_loop_frame packages false self
      simp only [panel_step, waydroid_resolved_cb, handle_waydroid_package, set_status_page]
      split_ifs <;> simp [h.1, h.2]
  | install_clicked =>
    simp [panel_step, install_waydroid_clicked_cb, CcWaydroidPanel.issue]
  | installed res =>
    cases res with
    | error message =>
      simp [panel_step, waydroid_installed_cb, set_status_page, CcWaydroidPanel.issue]
    | ok u =>
      simp only [panel_step, waydroid_installed_cb, set_status_page, check_waydroid_running,
        g_dbus_proxy_call, CcWaydroidPanel.issue]
      split_ifs <;> simp
  | bus res =>
    cases res with
    | error message => simp [panel_step, waydroid_bus_cb, CcWaydroidPanel.issue]
    | ok u =>
      simp [panel_step, waydroid_bus_cb, check_waydroid_running, g_dbus_proxy_call,
        CcWaydroidPanel.issue]
  | get_session res =>
    simp only [panel_step, waydroid_get_session_cb, Bool.false_and, Bool.false_eq_true,
      if_false, enable_waydroid_switch_set_active, enable_waydroid_active_cb,
      g_dbus_proxy_call, get_android_prop, CcWaydroidPanel.issue, gtk_switch_set_active_rest,
      GtkSwitch.block, GtkSwitch.unblock]
    split_ifs <;> simp
  | state_changed res =>
    cases res with
    | ok payload =>
      simp only [panel_step, waydroid_state_changed_cb, check_waydroid_running,
        g_dbus_proxy_call, CcWaydroidPanel.issue]
      split_ifs <;> simp
    | error message =>
      simp only [panel_step, waydroid_state_changed_cb, check_waydroid_running,
        enable_waydroid_switch_set_active, enable_waydroid_active_cb, g_dbus_proxy_call,
        CcWaydroidPanel.issue, gtk_switch_set_active_rest]
      split_ifs <;> simp
  | prop_watch prop line =>
    simp only [panel_step, get_prop_watch_eq env prop line self]
    split_ifs <;> simp
  | enable_toggled v =>
    simp only [panel_step, enable_waydroid_switch_set_active, enable_waydroid_active_cb,
      g_dbus_proxy_call, CcWaydroidPanel.issue, gtk_switch_set_active_rest]
    split_ifs <;> simp
  | uevent_toggled v =>
    simp only [panel_step, setting_uevent_switch_set_active, setting_uevent_active_cb,
      set_android_prop, CcWaydroidPanel.issue]
    split_ifs <;> simp
  | suspend_toggled v =>
    simp only [panel_step, setting_suspend_switch_set_active, setting_suspend_active_cb,
      set_android_prop, CcWaydroidPanel.issue]
    split_ifs <;> simp
  | shared_folder_toggled v =>
    simp only [panel_step, setting_shared_folder_switch_set_active,
      setting_shared_folder_active_cb]
    split_ifs <;> (try split) <;> simp [CcWaydroidPanel.issue]

/-- A sequence of events leaves the stack on "configure" when it starts
there. -/
theorem panel_run_stack (env : Env) (config_dir : List String) (events : List PanelEvent)
    (st : FileSystem × CcWaydroidPanel) (h : st.2.stack = "configure") :
    (panel_run env config_dir events st).2.stack = "configure" := by
  induction events generalizing st with
  | nil => exact h
  | cons ev rest ih =>
    simp only [panel_run]
    apply ih
    rcases (panel_step_frame env config_dir st ev).1 with h1 | h1
    · rw [h1, h]
    · exact h1

/-- Running one more event after a sequence is one step from where the
sequence ends. -/
theorem panel_run_append_one (env : Env) (config_dir : List String) (events : List PanelEvent)
    (ev : PanelEvent) (st : FileSystem × CcWaydroidPanel) :
    panel_run env config_dir (events ++ [ev]) st =
      panel_step env config_dir (panel_run env config_dir events st) ev := by
  induction events generalizing st with
  | nil => rfl
  | cons e rest ih => exact ih (panel_step env config_dir st e)

/-- The callback `waydroid_get_session_cb` shows "configure" and makes the
lifecycle toggle sensitive, whatever the outcome of the query. -/
theorem get_session_cb_configure (env : Env) (res : DBusReply) (self : CcWaydroidPanel) :
    (waydroid_get_session_cb env res self).stack = "configure" ∧
    (waydroid_get_session_cb env res self).enable_waydroid_switch.sensitive = true := by
  simp only [waydroid_get_session_cb, Bool.false_and, Bool.false_eq_true,
    if_false, enable_waydroid_switch_set_active, enable_waydroid_active_cb,
    g_dbus_proxy_call, get_android_prop, CcWaydroidPanel.issue, gtk_switch_set_active_rest,
    GtkSwitch.block, GtkSwitch.unblock]
  split_ifs <;> simp

/-- A panel that `cc_waydroid_panel_init` returns shows "configure". -/
theorem cc_waydroid_panel_init_stack (env : Env) (files : DesktopFiles)
    (template panel : CcWaydroidPanel)
    (h : (cc_waydroid_panel_init env files template).map Prod.snd = some panel) :
    panel.stack = "configure" := by
  unfold cc_waydroid_panel_init at h
  dsimp only at h
  split at h
  · simp at h
  · simp only [Option.map, Option.some.injEq] at h
    rw [← h]

/-- The function `cc_waydroid_panel_init` returns a panel when every
collected descriptor has a display name. -/
theorem cc_waydroid_panel_init_returns (env : Env) (files : DesktopFiles)
    (template : CcWaydroidPanel)
    (hnamed : ∀ d ∈ (env.search.flatten.filterMap env.g_desktop_app_info_new).filter
      (exec_contains "waydroid app launch "), d.Name ≠ none) :
    (cc_waydroid_panel_init env files template).isSome = true := by
  obtain ⟨to_sort, hscan, _⟩ := check_available_apps_scan_named env hnamed
  simp [cc_waydroid_panel_init, check_available_apps, hscan]

/-- C17.  In every state reached from the panel `cc_waydroid_panel_init`
returns by any sequence of panel events, the visible child of the stack is
"configure"; one more event, whichever it is, does not make "install" the
visible child and does not make the lifecycle toggle insensitive if it was
sensitive; and `waydroid_get_session_cb` for a status query that failed
shows "configure" with the toggle sensitive, like for one that succeeded. -/
theorem configure_screen_terminal (env : Env) (config_dir : List String)
    (files : DesktopFiles) (fs : FileSystem) (template panel : CcWaydroidPanel)
    (events : List PanelEvent) (ev : PanelEvent) (message : String)
    (hpanel : (cc_waydroid_panel_init env files template).map Prod.snd = some panel) :
    (panel_run env config_dir events (fs, panel)).2.stack = "configure" ∧
    (panel_step env config_dir (panel_run env config_dir events (fs, panel)) ev).2.stack
      ≠ "install" ∧
    ((panel_step env config_dir
        (panel_run env config_dir events (fs, panel)) ev).2.enable_waydroid_switch.sensitive
        = true ∨
      (panel_run env config_dir events (fs, panel)).2.enable_waydroid_switch.sensitive
        = false) ∧
    (waydroid_get_session_cb env (Except.error message)
        (panel_run env config_dir events (fs, panel)).2).stack = "configure" ∧
    (waydroid_get_session_cb env (Except.error message)
        (panel_run env config_dir events (fs, panel)).2).enable_waydroid_switch.sensitive
      = true := by
  have hinit : (fs, panel).2.stack = "configure" :=
    cc_waydroid_panel_init_stack env files template panel hpanel
  have hrun := panel_run_stack env config_dir events _ hinit
  have hnext := panel_run_stack env config_dir (events ++ [ev]) _ hinit
  rw [panel_run_append_one] at hnext
  refine ⟨hrun, ?_, ?_, (get_session_cb_configure env _ _).1,
    (get_session_cb_configure env _ _).2⟩
  · rw [hnext]
    decide
  · rcases (panel_step_frame env config_dir
      (panel_run env config_dir events (fs, panel)) ev).2 with h1 | h1
    · cases hs : (panel_run env config_dir events
        (fs, panel)).2.enable_waydroid_switch.sensitive
      · exact Or.inr rfl
      · rw [hs] at h1
        exact Or.inl h1
    · exact Or.inl h1

/-- Witness for C17: in the sample environment `cc_waydroid_panel_init`
returns a panel, and after a status query that failed and a click on the
install button the stack still shows "configure". -/
theorem configure_screen_terminal_witness :
    (cc_waydroid_panel_init sample_env sample_files sample_panel).map Prod.snd
      = some sample_panel_initialised ∧
    (panel_run sample_env sample_config_dir
        [PanelEvent.get_session (Except.error "failed"), PanelEvent.install_clicked]
        (sample_fs, sample_panel_initialised)).2.stack = "configure" :=
  ⟨by decide,
   (configure_screen_terminal sample_env sample_config_dir sample_files sample_fs sample_panel
      sample_panel_initialised
      [PanelEvent.get_session (Except.error "failed"), PanelEvent.install_clicked]
      PanelEvent.install_clicked "failed" (by decide)).1⟩

end Waydroid
